import Mathlib

/-!
# Corsair Harpoon mouse wrapper (`harpoon.c`): packet encoders and device session

A shallow embedding of `src/harpoon.c`, and of `main` of `src/cli.c`.

* Bytes are natural numbers; a conversion to `uint8_t` is `u8` (reduction modulo 256) and
  arithmetic on `unsigned` is reduced modulo 2^32 (`u32`).
* A packet is the list of the 64 bytes of the static buffer an encoder returns.
* The session functions pass the machine state explicitly.  The state holds the fields of
  `struct harpoon`, the module-level slot `harpoonPacket__defer`, the state of the outside world
  (libusb, the C library, the code behind the callbacks) and a log of every call that leaves
  `harpoon.c`, oldest first.  The log also records each call through `harpoonPacket__defer`.
* The outside world is a parameter (`Env`): nothing is assumed about what libusb answers.
* A registered callback is code of the caller.  In the first model of the session its
  invocation is logged and changes the outside world, and it does not call back into the
  session.  The section on callbacks that call back into the session gives the session code
  with callbacks that do, and agrees with the first model on callbacks that do not.
* The session pointer `hp` is never null (the functions assert it or are called with it).
* The two compile-time switches are fields of `Build`.  `die` ends the process: a function
  that can reach it returns `Except`, the error being the process state at exit.
-/

namespace Harpoon

/-! ## Machine integers and constants -/

/-- Conversion of an integer value to `uint8_t`. -/
def u8 (n : Nat) : Nat := n % 256

/-- Conversion of an integer value to `unsigned` (32 bits). -/
def u32 (n : Nat) : Nat := n % 2 ^ 32

/-- The constant `idVendor` of `harpoon.c`. -/
def idVendor : Nat := 0x1b1c

/-- The constant `idProduct` of `harpoon.c`. -/
def idProduct : Nat := 0x1b3c

/-- The constant `out_bInterfaceNumber` of `harpoon.c`. -/
def out_bInterfaceNumber : Nat := 1

/-- The constant `out_bEndpointAddress` of `harpoon.c` (EP 2 OUT). -/
def out_bEndpointAddress : Nat := 0x02

/-- The constant `out_wMaxPacketSize` of `harpoon.c`. -/
def out_wMaxPacketSize : Nat := 0x0040

/-- The direction bit `LIBUSB_ENDPOINT_OUT` of `libusb.h`. -/
def LIBUSB_ENDPOINT_OUT : Nat := 0x00

/-! ## Packet encoders -/

/-- A packet: the bytes of a `harpoonPacket` buffer. -/
abbrev Packet := List Nat

/-- The local array `uint8_t tmp[out_wMaxPacketSize] = { ... }`: the listed initialisers, the
remaining elements zero.  `memcpy(out, tmp, out_wMaxPacketSize)` copies all of it, so this is
also the buffer every encoder returns. -/
def tmp (init : List Nat) : Packet :=
  init ++ List.replicate (out_wMaxPacketSize - init.length) 0

/-- Encoder `harpoonPacket_color(uint8_t r, uint8_t g, uint8_t b)`. -/
def harpoonPacket_color (r g b : Nat) : Packet :=
  let r := u8 r
  let g := u8 g
  let b := u8 b
  tmp [0x07, 0x22, 0x01, 0x01, 0x03, r, g, b]

/-- The bytes returned by `harpoonPacket_pollrate(uint8_t msec)`; the assignment to
`harpoonPacket__defer` it also makes is in `harpoonPacket_pollrate` below. -/
def harpoonPacket_pollrate_bytes (msec : Nat) : Packet :=
  let msec := u8 msec
  tmp [0x07, 0x0a, 0x00, 0x00, msec]

/-- Encoder `harpoonPacket_dpimode(uint8_t index)`. -/
def harpoonPacket_dpimode (index : Nat) : Packet :=
  let index := u8 index
  tmp [0x07, 0x13, 0x02, 0x00, index]

/-- Encoder `harpoonPacket_dpiconfig(uint8_t index, unsigned x, unsigned y, uint8_t r,
uint8_t g, uint8_t b)`.  Every initialiser is an `int` or `unsigned` expression converted to
`uint8_t` when it is stored in `tmp`. -/
def harpoonPacket_dpiconfig (index x y r g b : Nat) : Packet :=
  let index := u8 index
  let x := u32 x
  let y := u32 y
  let r := u8 r
  let g := u8 g
  let b := u8 b
  tmp [0x07, 0x13, u8 (0xd0 ||| index), 0x00, 0x00
    , u8 (u32 ((x &&& 0xff) <<< 8)), u8 ((x &&& 0xff00) >>> 8)
    , u8 (u32 ((y &&& 0xff) <<< 8)), u8 ((y &&& 0xff00) >>> 8)
    , r, g, b]

/-- Encoder `harpoonPacket_dpisetenabled(bool m0, ..., bool m5)`: the `bool` arguments are
promoted to `int` (0 or 1) by the shifts. -/
def harpoonPacket_dpisetenabled (m0 m1 m2 m3 m4 m5 : Bool) : Packet :=
  tmp [0x07, 0x13, 0x05, 0x00
    , u8 (m0.toNat
        ||| (m1.toNat <<< 1)
        ||| (m2.toNat <<< 2)
        ||| (m3.toNat <<< 3)
        ||| (m4.toNat <<< 4)
        ||| (m5.toNat <<< 5))]

/-! ## The device session -/

/-- A `libusb_device_handle *` that is not `NULL`. -/
abbrev Handle := Nat

/-- A `libusb_device *` that is not `NULL`. -/
abbrev Device := Nat

/-- A `libusb_context *`. -/
abbrev Context := Nat

/-- A function pointer `void (*)(void *udata)` that is not `NULL`. -/
abbrev Callback := Nat

/-- A `void *udata`. -/
abbrev Udata := Nat

/-- The functions `harpoon.c` stores in `harpoonPacket__defer`: only
`harpoonPacket__defer_pollrate`. -/
inductive Defer where
  | pollrate
  deriving DecidableEq, Repr

/-- One entry of the log: a call that leaves `harpoon.c` (libusb, C library, a registered
callback), or the invocation of the deferred function. -/
inductive Event where
  | calloc
  | free
  | libusb_init
  | libusb_set_option (ctx : Context)
  | libusb_exit (ctx : Context)
  | libusb_open_device_with_vid_pid (ctx : Context) (vid pid : Nat)
  | libusb_close (h : Handle)
  | libusb_set_auto_detach_kernel_driver (h : Handle) (enable : Bool)
  | libusb_claim_interface (h : Handle) (interface_number : Nat)
  | libusb_release_interface (h : Option Handle) (interface_number : Nat)
  | libusb_bulk_transfer (h : Handle) (endpoint : Nat) (data : Packet) (length timeout : Nat)
  | libusb_get_device (h : Handle)
  | libusb_get_max_packet_size (d : Device) (endpoint : Nat)
  | onConnect (fn : Callback) (udata : Udata)
  | onDisconnect (fn : Callback) (udata : Udata)
  | defer (fn : Defer)
  | system (command : String)
  | stderr (text : String)
  | die (text : String)
  deriving DecidableEq, Repr

/-- The outside world as `harpoon.c` sees it: the answer of every external call in a world
state `W`, and the world state after the call. -/
structure Env (W : Type) where
  calloc : W → Bool × W
  free : W → W
  libusb_init : W → (Int × Context) × W
  libusb_set_option : W → Context → W
  libusb_exit : W → Context → W
  libusb_open_device_with_vid_pid : W → Context → Nat → Nat → Option Handle × W
  libusb_close : W → Handle → W
  libusb_set_auto_detach_kernel_driver : W → Handle → Bool → Int × W
  libusb_claim_interface : W → Handle → Nat → Int × W
  libusb_release_interface : W → Option Handle → Nat → Int × W
  libusb_bulk_transfer : W → Handle → Nat → Packet → Nat → Nat → (Int × Int) × W
  libusb_get_device : W → Handle → Option Device × W
  libusb_get_max_packet_size : W → Device → Nat → Int × W
  callback : W → Callback → Udata → W
  system : W → String → W

/-- Compile-time switches of `harpoon.c`. -/
structure Build where
  HARPOON_NO_MAIN_LOOP : Bool
  NDEBUG : Bool
  deriving DecidableEq, Repr

/-- The fields of `struct harpoon`; `none` is a null pointer. -/
structure Session where
  device : Option Handle
  context : Context
  onConnect : Option Callback
  onDisconnect : Option Callback
  onConnect_udata : Udata
  onDisconnect_udata : Udata
  deriving DecidableEq, Repr

/-- The state of the process outside any session: the static `harpoonPacket__defer`, the
outside world and the log. -/
structure Proc (W : Type) where
  harpoonPacket__defer : Option Defer
  world : W
  trace : List Event
  deriving DecidableEq, Repr

/-- The state of the process with its session `hp`. -/
structure Machine (W : Type) extends Proc W where
  hp : Session
  deriving DecidableEq, Repr

variable {W : Type}

/-- Record an external call: the new world state and the log entry. -/
def Machine.call (m : Machine W) (w : W) (e : Event) : Machine W :=
  { m with world := w, trace := m.trace ++ [e] }

/-- Assignment `hp->device = d`. -/
def Machine.setDevice (m : Machine W) (d : Option Handle) : Machine W :=
  { m with hp := { m.hp with device := d } }

/-- Function `die(fmt, ...)` of `harpoon.c` with a non-null format: prints the message to
stderr and ends the process with `exit(EXIT_FAILURE)`.  The result is the state at exit. -/
def die (text : String) (p : Proc W) : Proc W :=
  { p with trace := p.trace ++ [Event.die text] }

/-- Function `harpoon_disconnect(struct harpoon *hp)`. -/
def harpoon_disconnect (E : Env W) (m : Machine W) : Machine W :=
  let m :=
    match m.hp.device with
    | some h => m.call (E.libusb_close m.world h) (Event.libusb_close h)
    | none => m
  let m := m.setDevice none
  match m.hp.onDisconnect with
  | some fn =>
    m.call (E.callback m.world fn m.hp.onDisconnect_udata)
      (Event.onDisconnect fn m.hp.onDisconnect_udata)
  | none => m

/-- Function `harpoon_connect(struct harpoon *hp)`; the result `none` is the null pointer
returned on success. -/
def harpoon_connect (E : Env W) (m : Machine W) : Option String × Machine W :=
  -- reinitialize to zero
  let m :=
    match m.hp.device with
    | some h => m.call (E.libusb_close m.world h) (Event.libusb_close h)
    | none => m
  let m := m.setDevice none
  -- fetch device
  let r := E.libusb_open_device_with_vid_pid m.world m.hp.context idVendor idProduct
  let m := (m.call r.2 (Event.libusb_open_device_with_vid_pid m.hp.context idVendor idProduct)
    ).setDevice r.1
  match m.hp.device with
  | none => (some "libusb_open_device_with_vid_pid failed; is device plugged in?", m)
  | some h =>
    let r := E.libusb_set_auto_detach_kernel_driver m.world h true
    let m := m.call r.2 (Event.libusb_set_auto_detach_kernel_driver h true)
    let errcode := r.1
    if errcode ≠ 0 then
      (some "libusb_set_auto_detach_kernel_driver failed", m)
    else
      -- now attempt to claim the interface
      let r := E.libusb_claim_interface m.world h out_bInterfaceNumber
      let m := m.call r.2 (Event.libusb_claim_interface h out_bInterfaceNumber)
      let errcode := r.1
      if errcode ≠ 0 then
        (some "libusb_claim_interface failed", m)
      else
        let m :=
          match m.hp.onConnect with
          | some fn =>
            m.call (E.callback m.world fn m.hp.onConnect_udata)
              (Event.onConnect fn m.hp.onConnect_udata)
          | none => m
        (none, m)

/-- Function `harpoonPacket__defer_pollrate(struct harpoon *hp)`.  `Except.error` is the
process ended by `die`. -/
def harpoonPacket__defer_pollrate (B : Build) (E : Env W) (m : Machine W) :
    Except (Proc W) (Machine W) :=
  let m := harpoon_disconnect E m
  if B.HARPOON_NO_MAIN_LOOP then
    let m := m.call (E.system m.world "sleep 2s") (Event.system "sleep 2s")
    let m := m.call m.world (Event.stderr "reconnecting...")
    match harpoon_connect E m with
    | (some errstr, m) => Except.error (die errstr m.toProc)
    | (none, m) => Except.ok m
  else
    Except.ok m

/-- Call through the function pointer `harpoonPacket__defer(hp)`. -/
def Defer.run (B : Build) (E : Env W) (m : Machine W) : Defer → Except (Proc W) (Machine W)
  | Defer.pollrate =>
    harpoonPacket__defer_pollrate B E { m with trace := m.trace ++ [Event.defer Defer.pollrate] }

/-- Function `harpoonPacket_pollrate(uint8_t msec)`: returns the packet and stores
`harpoonPacket__defer_pollrate` in `harpoonPacket__defer`. -/
def harpoonPacket_pollrate (msec : Nat) (m : Machine W) : Packet × Machine W :=
  (harpoonPacket_pollrate_bytes msec, { m with harpoonPacket__defer := some Defer.pollrate })

/-- The label `L_return` of `harpoon_send`: clear `harpoonPacket__defer`, return `rval`. -/
def harpoon_send.L_return (rval : Int) (m : Machine W) : Except (Proc W) (Int × Machine W) :=
  Except.ok (rval, { m with harpoonPacket__defer := none })

/-- Function `harpoon_send(struct harpoon *hp, const harpoonPacket *sig)`.  `Except.error` is
the process ended by `die` inside the deferred function. -/
def harpoon_send (B : Build) (E : Env W) (m : Machine W) (sig : Packet) :
    Except (Proc W) (Int × Machine W) :=
  match m.hp.device with
  | none => harpoon_send.L_return 1 m
  | some h =>
    -- transfer color code to mouse
    let endpoint := out_bEndpointAddress ||| LIBUSB_ENDPOINT_OUT
    let r := E.libusb_bulk_transfer m.world h endpoint sig out_wMaxPacketSize 0
    let m := m.call r.2 (Event.libusb_bulk_transfer h endpoint sig out_wMaxPacketSize 0)
    let errcode := r.1.1
    let sent := r.1.2
    if errcode ≠ 0 ∨ sent ≠ (out_wMaxPacketSize : Int) then
      harpoon_send.L_return 1 m
    else
      match m.harpoonPacket__defer with
      | some fn =>
        match fn.run B E m with
        | Except.ok m => harpoon_send.L_return 0 m
        | Except.error p => Except.error p
      | none => harpoon_send.L_return 0 m

/-- Function `harpoon_set_onConnect(hp, onConnect, udata)`. -/
def harpoon_set_onConnect (m : Machine W) (onConnect : Option Callback) (udata : Udata) :
    Machine W :=
  { m with hp := { m.hp with onConnect := onConnect, onConnect_udata := udata } }

/-- Function `harpoon_set_onDisconnect(hp, onDisconnect, udata)`. -/
def harpoon_set_onDisconnect (m : Machine W) (onDisconnect : Option Callback) (udata : Udata) :
    Machine W :=
  { m with hp := { m.hp with onDisconnect := onDisconnect, onDisconnect_udata := udata } }

/-- Function `harpoon_isConnected(struct harpoon *hp)` for a non-null `hp`. -/
def harpoon_isConnected (E : Env W) (m : Machine W) : Int × Machine W :=
  match m.hp.device with
  | none => (0, m)
  | some h =>
    let r := E.libusb_get_device m.world h
    let m := m.call r.2 (Event.libusb_get_device h)
    match r.1 with
    | none => (0, m)
    | some d =>
      let r := E.libusb_get_max_packet_size m.world d out_bEndpointAddress
      let m := m.call r.2 (Event.libusb_get_max_packet_size d out_bEndpointAddress)
      (if r.1 > 0 then 1 else 0, m)

/-- Function `harpoon_monitor(struct harpoon *hp)`. -/
def harpoon_monitor (E : Env W) (m : Machine W) : Machine W :=
  match m.hp.device with
  | some _ =>
    let r := harpoon_isConnected E m
    if r.1 = 0 then harpoon_disconnect E r.2 else r.2
  | none => (harpoon_connect E m).2

/-- Function `harpoon_new(void)`.  `Except.error` is the process ended by `die`. -/
def harpoon_new (B : Build) (E : Env W) (p : Proc W) : Except (Proc W) (Machine W) :=
  let r := E.calloc p.world
  let p : Proc W := { p with world := r.2, trace := p.trace ++ [Event.calloc] }
  if r.1 = false then
    Except.error (die "memory error" p)
  else
    let hp : Session :=
      { device := none, context := 0, onConnect := none, onDisconnect := none
        onConnect_udata := 0, onDisconnect_udata := 0 }
    let m : Machine W := { p with hp := hp }
    -- initialize libusb context
    let r := E.libusb_init m.world
    let m := m.call r.2 Event.libusb_init
    let m : Machine W := { m with hp := { m.hp with context := r.1.2 } }
    let errcode := r.1.1
    if errcode ≠ 0 then
      Except.error (die "libusb_init failed" m.toProc)
    else
      let m :=
        if B.NDEBUG then m
        else m.call (E.libusb_set_option m.world m.hp.context) (Event.libusb_set_option m.hp.context)
      Except.ok m

/-- Function `harpoon_delete(struct harpoon *hp)` for a non-null `hp`. -/
def harpoon_delete (E : Env W) (m : Machine W) : Machine W :=
  -- cleanup
  let r := E.libusb_release_interface m.world m.hp.device out_bInterfaceNumber
  let m := m.call r.2 (Event.libusb_release_interface m.hp.device out_bInterfaceNumber)
  let m := harpoon_disconnect E m
  let m := m.call (E.libusb_exit m.world m.hp.context) (Event.libusb_exit m.hp.context)
  m.call (E.free m.world) Event.free

/-! ## The device session with callbacks that call back into it

The registered callbacks of the repository (`onConnect` of `monitor.c` and of
`qt-gui/mainwindow.cpp`) call `harpoon_send` and `harpoon_isConnected` on the session they are
invoked from.  This section is the session code of `harpoon.c` again, with the call
`hp->onConnect(udata)` and `hp->onDisconnect(udata)` running the code of the callback on the
session itself.

* The code of a callback, and of the controller that owns the session, is a `Prog`: calls of
  the functions of `harpoon.h` on the session, each continued with the result of the call, and
  effects on the outside world.  `struct harpoon` is opaque to this code.
* The log (`Obs`) records, besides the events of the log above, each assignment to
  `hp->device` with the value before it, and each call a `Prog` makes.
* A call of a callback from within a callback from within a callback, and so on, may never
  end.  The depth of this nesting is bounded by fuel (`invoke`): at depth 0 a callback is not
  run and the result is `Res.fuel` with the state reached so far.
* With callbacks that make no call on the session the functions of this section are those of
  the section above (the theorems `harpoon_connect_agrees` and the like). -/

namespace Reentrant

/-- The functions of `harpoon.h` that a `Prog` calls. -/
inductive Fn where
  | connect
  | disconnect
  | monitor
  | isConnected
  | send
  | pollrate
  | set_onConnect
  | set_onDisconnect
  deriving DecidableEq, Repr

/-- One entry of the log: an event as above, an assignment `hp->device = new` made when the
field held `old`, or a call of a session function by the controller or by a callback. -/
inductive Obs where
  | event (e : Event)
  | device (old new : Option Handle)
  | call (f : Fn)
  deriving DecidableEq, Repr

/-- The state of the process: the session `hp`, the static `harpoonPacket__defer`, the
outside world and the log. -/
structure State (W : Type) where
  hp : Session
  harpoonPacket__defer : Option Defer
  world : W
  log : List Obs
  deriving DecidableEq, Repr

/-- How a call ends: it returns `a`, the process is ended by `die`, or the fuel for nested
callbacks is used up.  Each carries the state reached. -/
inductive Res (W : Type) (α : Type) where
  | ok (a : α) (s : State W)
  | exited (s : State W)
  | fuel (s : State W)
  deriving DecidableEq, Repr

/-- The state a call ends in. -/
def Res.state {α : Type} : Res W α → State W
  | Res.ok _ s => s
  | Res.exited s => s
  | Res.fuel s => s

/-- Sequencing: the code after a call runs when the call returns. -/
def Res.bind {α β : Type} (r : Res W α) (f : α → State W → Res W β) : Res W β :=
  match r with
  | Res.ok a s => f a s
  | Res.exited s => Res.exited s
  | Res.fuel s => Res.fuel s

/-- The code of a callback or of the controller. -/
inductive Prog (W : Type) where
  | ret
  | world (f : W → W) (k : Prog W)
  | read (k : W → Prog W)
  | pollrate (msec : Nat) (k : Prog W)
  | send (sig : Packet) (k : Int → Prog W)
  | connect (k : Option String → Prog W)
  | disconnect (k : Prog W)
  | monitor (k : Prog W)
  | isConnected (k : Int → Prog W)
  | set_onConnect (onConnect : Option Callback) (udata : Udata) (k : Prog W)
  | set_onDisconnect (onDisconnect : Option Callback) (udata : Udata) (k : Prog W)

/-- What the invocation of a registered callback does: `cb fn udata s` is the call
`fn(udata)` in the state `s`. -/
abbrev Invoke (W : Type) := Callback → Udata → State W → Res W Unit

/-- Record an external call or a callback invocation: the new world state and the entry. -/
def State.ext (s : State W) (w : W) (e : Event) : State W :=
  { s with world := w, log := s.log ++ [Obs.event e] }

/-- Assignment `hp->device = d`, recorded with the value the field held. -/
def State.setDevice (s : State W) (d : Option Handle) : State W :=
  { s with hp := { s.hp with device := d }, log := s.log ++ [Obs.device s.hp.device d] }

/-- Record that the controller or a callback calls the session function `f`. -/
def State.enter (s : State W) (f : Fn) : State W :=
  { s with log := s.log ++ [Obs.call f] }

/-- Function `harpoon_disconnect(struct harpoon *hp)`. -/
def harpoon_disconnect (cb : Invoke W) (E : Env W) (s : State W) : Res W Unit :=
  let s :=
    match s.hp.device with
    | some h => s.ext (E.libusb_close s.world h) (Event.libusb_close h)
    | none => s
  let s := s.setDevice none
  match s.hp.onDisconnect with
  | some fn =>
    cb fn s.hp.onDisconnect_udata
      (s.ext s.world (Event.onDisconnect fn s.hp.onDisconnect_udata))
  | none => Res.ok () s

/-- Function `harpoon_connect(struct harpoon *hp)`; the result `none` is the null pointer
returned on success. -/
def harpoon_connect (cb : Invoke W) (E : Env W) (s : State W) : Res W (Option String) :=
  -- reinitialize to zero
  let s :=
    match s.hp.device with
    | some h => s.ext (E.libusb_close s.world h) (Event.libusb_close h)
    | none => s
  let s := s.setDevice none
  -- fetch device
  let r := E.libusb_open_device_with_vid_pid s.world s.hp.context idVendor idProduct
  let s := (s.ext r.2 (Event.libusb_open_device_with_vid_pid s.hp.context idVendor idProduct)
    ).setDevice r.1
  match s.hp.device with
  | none => Res.ok (some "libusb_open_device_with_vid_pid failed; is device plugged in?") s
  | some h =>
    let r := E.libusb_set_auto_detach_kernel_driver s.world h true
    let s := s.ext r.2 (Event.libusb_set_auto_detach_kernel_driver h true)
    let errcode := r.1
    if errcode ≠ 0 then
      Res.ok (some "libusb_set_auto_detach_kernel_driver failed") s
    else
      -- now attempt to claim the interface
      let r := E.libusb_claim_interface s.world h out_bInterfaceNumber
      let s := s.ext r.2 (Event.libusb_claim_interface h out_bInterfaceNumber)
      let errcode := r.1
      if errcode ≠ 0 then
        Res.ok (some "libusb_claim_interface failed") s
      else
        match s.hp.onConnect with
        | some fn =>
          (cb fn s.hp.onConnect_udata
            (s.ext s.world (Event.onConnect fn s.hp.onConnect_udata))).bind
            (fun _ s => Res.ok none s)
        | none => Res.ok none s

/-- Function `harpoonPacket__defer_pollrate(struct harpoon *hp)`. -/
def harpoonPacket__defer_pollrate (B : Build) (cb : Invoke W) (E : Env W) (s : State W) :
    Res W Unit :=
  (harpoon_disconnect cb E s).bind (fun _ s =>
    if B.HARPOON_NO_MAIN_LOOP then
      let s := s.ext (E.system s.world "sleep 2s") (Event.system "sleep 2s")
      let s := s.ext s.world (Event.stderr "reconnecting...")
      (harpoon_connect cb E s).bind (fun errstr s =>
        match errstr with
        | some text => Res.exited (s.ext s.world (Event.die text))
        | none => Res.ok () s)
    else
      Res.ok () s)

/-- The label `L_return` of `harpoon_send`: clear `harpoonPacket__defer`, return `rval`. -/
def harpoon_send.L_return (rval : Int) (s : State W) : Res W Int :=
  Res.ok rval { s with harpoonPacket__defer := none }

/-- Function `harpoon_send(struct harpoon *hp, const harpoonPacket *sig)`. -/
def harpoon_send (B : Build) (cb : Invoke W) (E : Env W) (s : State W) (sig : Packet) :
    Res W Int :=
  match s.hp.device with
  | none => harpoon_send.L_return 1 s
  | some h =>
    -- transfer color code to mouse
    let endpoint := out_bEndpointAddress ||| LIBUSB_ENDPOINT_OUT
    let r := E.libusb_bulk_transfer s.world h endpoint sig out_wMaxPacketSize 0
    let s := s.ext r.2 (Event.libusb_bulk_transfer h endpoint sig out_wMaxPacketSize 0)
    let errcode := r.1.1
    let sent := r.1.2
    if errcode ≠ 0 ∨ sent ≠ (out_wMaxPacketSize : Int) then
      harpoon_send.L_return 1 s
    else
      match s.harpoonPacket__defer with
      | some Defer.pollrate =>
        (harpoonPacket__defer_pollrate B cb E (s.ext s.world (Event.defer Defer.pollrate))).bind
          (fun _ s => harpoon_send.L_return 0 s)
      | none => harpoon_send.L_return 0 s

/-- Function `harpoon_isConnected(struct harpoon *hp)` for a non-null `hp`. -/
def harpoon_isConnected (E : Env W) (s : State W) : Int × State W :=
  match s.hp.device with
  | none => (0, s)
  | some h =>
    let r := E.libusb_get_device s.world h
    let s := s.ext r.2 (Event.libusb_get_device h)
    match r.1 with
    | none => (0, s)
    | some d =>
      let r := E.libusb_get_max_packet_size s.world d out_bEndpointAddress
      let s := s.ext r.2 (Event.libusb_get_max_packet_size d out_bEndpointAddress)
      (if r.1 > 0 then 1 else 0, s)

/-- Function `harpoon_monitor(struct harpoon *hp)`. -/
def harpoon_monitor (cb : Invoke W) (E : Env W) (s : State W) : Res W Unit :=
  match s.hp.device with
  | some _ =>
    let r := harpoon_isConnected E s
    if r.1 = 0 then harpoon_disconnect cb E r.2 else Res.ok () r.2
  | none => (harpoon_connect cb E s).bind (fun _ s => Res.ok () s)

/-- Run the code `p` on the session, callbacks being invoked by `cb`.  Each call of a session
function is recorded before it is made. -/
def Prog.run (B : Build) (cb : Invoke W) (E : Env W) : Prog W → State W → Res W Unit
  | Prog.ret, s => Res.ok () s
  | Prog.world f k, s => Prog.run B cb E k { s with world := f s.world }
  | Prog.read k, s => Prog.run B cb E (k s.world) s
  | Prog.pollrate _ k, s =>
    Prog.run B cb E k
      { s.enter Fn.pollrate with harpoonPacket__defer := some Defer.pollrate }
  | Prog.send sig k, s =>
    match harpoon_send B cb E (s.enter Fn.send) sig with
    | Res.ok rval s => Prog.run B cb E (k rval) s
    | Res.exited s => Res.exited s
    | Res.fuel s => Res.fuel s
  | Prog.connect k, s =>
    match harpoon_connect cb E (s.enter Fn.connect) with
    | Res.ok errstr s => Prog.run B cb E (k errstr) s
    | Res.exited s => Res.exited s
    | Res.fuel s => Res.fuel s
  | Prog.disconnect k, s =>
    match harpoon_disconnect cb E (s.enter Fn.disconnect) with
    | Res.ok _ s => Prog.run B cb E k s
    | Res.exited s => Res.exited s
    | Res.fuel s => Res.fuel s
  | Prog.monitor k, s =>
    match harpoon_monitor cb E (s.enter Fn.monitor) with
    | Res.ok _ s => Prog.run B cb E k s
    | Res.exited s => Res.exited s
    | Res.fuel s => Res.fuel s
  | Prog.isConnected k, s =>
    Prog.run B cb E (k (harpoon_isConnected E (s.enter Fn.isConnected)).1)
      (harpoon_isConnected E (s.enter Fn.isConnected)).2
  | Prog.set_onConnect onConnect udata k, s =>
    Prog.run B cb E k
      { s.enter Fn.set_onConnect with
        hp := { s.hp with onConnect := onConnect, onConnect_udata := udata } }
  | Prog.set_onDisconnect onDisconnect udata k, s =>
    Prog.run B cb E k
      { s.enter Fn.set_onDisconnect with
        hp := { s.hp with onDisconnect := onDisconnect, onDisconnect_udata := udata } }

/-- The invocation of a registered callback, whose code is `code fn udata`, with `fuel`
levels of nested callbacks left. -/
def invoke (B : Build) (E : Env W) (code : Callback → Udata → Prog W) : Nat → Invoke W
  | 0 => fun _ _ s => Res.fuel s
  | fuel + 1 => fun fn udata s => Prog.run B (invoke B E code fuel) E (code fn udata) s

end Reentrant

/-! ## The command-line program (`cli.c`)

`main` of `cli.c`.  The argument loop `for (i = 1; i < argc; )` is run with fuel: the result
`none` of `main.loop` and of `main` is a loop that has not finished within the fuel.  The
conversions `sscanf(str, "%d", ...)` and `sscanf(str, "%x", ...)` of the C library are a
parameter (`Libc`).  `argv` is the list of its `argc` strings; `argv[argc]` is the null
pointer, and a read past it is undefined. -/

/-- The constant `DPIMODE_COUNT` of `cli.c`. -/
def DPIMODE_COUNT : Nat := 6

/-- The `struct dpimode` of `cli.c`. -/
structure dpimode where
  precision : Int
  color : Nat
  deriving DecidableEq, Repr

/-- The conversions of the C library used by `cli.c`: `sscanf(str, "%d", &v)` and
`sscanf(str, "%x", &v)`.  The result is `none` when the call does not return 1, and the
converted value otherwise. -/
structure Libc where
  sscanf_d : String → Option Int
  sscanf_x : String → Option Nat

/-- Conversion of an `int` value to `unsigned` or `uint8_t` at a call: the encoders reduce
the natural number further. -/
def toUnsigned (z : Int) : Nat := (z % 2 ^ 32).toNat

/-- Test `!strcasecmp(a, b)` of the C library: the strings are equal up to the case of the
letters A to Z. -/
def strcasecmp_eq (a b : String) : Bool :=
  a.data.map Char.toLower == b.data.map Char.toLower

/-- The test `ARGMATCH(ALIAS, NAME)` of `main` on the argument `this`. -/
def ARGMATCH (this ALIAS NAME : String) : Bool :=
  strcasecmp_eq this ("-" ++ ALIAS) || strcasecmp_eq this ("--" ++ NAME)

/-- The read `PARAM(X)`, which is `argv[i + 1 + X]`: `some (some str)` for an argument,
`some none` for the null pointer `argv[argc]`, `none` for a read past it. -/
def PARAM (argv : List String) (i X : Nat) : Option (Option String) :=
  if i + 1 + X < argv.length then some argv[i + 1 + X]?
  else if i + 1 + X = argv.length then some none
  else none

/-- Function `get_color_from_string(str)` of `cli.c`; `Except.error` is the message it dies
with. -/
def get_color_from_string (L : Libc) (str : String) : Except String Nat :=
  match L.sscanf_x str with
  | none => Except.error ("invalid color '" ++ str ++ "'; hex value must be < 0xffffff")
  | some color =>
    if color > 0xffffff then
      Except.error ("invalid color '" ++ str ++ "'; hex value must be < 0xffffff")
    else
      Except.ok color

/-- Function `get_precision_from_string(str)` of `cli.c`; `Except.error` is the message it
dies with.  The remainder is taken of a value already known to be at least 250. -/
def get_precision_from_string (L : Libc) (str : String) : Except String Int :=
  let multiple : Int := 250
  let minval : Int := 250
  let maxval : Int := 6000
  match L.sscanf_d str with
  | none =>
    Except.error ("invalid precision '" ++ str
      ++ "'; decimal value must be multiple of 250, between 250 and 6000")
  | some precision =>
    if precision < minval ∨ precision > maxval ∨ precision % multiple ≠ 0 then
      Except.error ("invalid precision '" ++ str
        ++ "'; decimal value must be multiple of 250, between 250 and 6000")
    else
      Except.ok precision

/-- The local variables of `main` that the argument loop reads and writes. -/
structure Args where
  i : Nat
  polling : Int
  dpimode : List dpimode
  only : Option String
  deriving DecidableEq, Repr

/-- How one round of the argument loop ends, and how the loop ends: it goes on (has finished)
with the variables `s`, the process dies with a message, or `argv` is read out of bounds. -/
inductive ArgStep where
  | next (s : Args)
  | die (text : String)
  | undefined
  deriving DecidableEq, Repr

/-- The body of the argument loop of `main`, for `this = argv[i]`. -/
def main.step (L : Libc) (argv : List String) (s : Args) (this : String) : ArgStep :=
  if ARGMATCH this "p" "polling" then
    match PARAM argv s.i 0 with
    | none => ArgStep.undefined
    | some none => ArgStep.die ("arg " ++ this ++ " not enough arguments")
    | some (some pollingStr) =>
      -- retrieve and validate polling rate
      match L.sscanf_d pollingStr with
      | none => ArgStep.die "invalid polling rate; valid options: 1000, 500, 250, 125"
      | some polling =>
        if polling ≠ 1000 ∧ polling ≠ 500 ∧ polling ≠ 250 ∧ polling ≠ 125 then
          ArgStep.die "invalid polling rate; valid options: 1000, 500, 250, 125"
        else
          -- skip argument and param(s)
          ArgStep.next { s with polling := polling, i := s.i + 2 }
  else if ARGMATCH this "d" "dpi" then
    match PARAM argv s.i 0, PARAM argv s.i 1, PARAM argv s.i 2 with
    | some (some indexStr), some (some precisionStr), some (some colorStr) =>
      -- retrieve and validate index
      match L.sscanf_d indexStr with
      | none =>
        ArgStep.die ("invalid index '" ++ indexStr ++ "'; needs decimal value between 0 and 5")
      | some index =>
        if index < 0 ∨ index ≥ (DPIMODE_COUNT : Int) then
          ArgStep.die ("invalid index '" ++ indexStr
            ++ "'; needs decimal value between 0 and 5")
        else
          -- set up DPI mode
          match get_precision_from_string L precisionStr with
          | Except.error text => ArgStep.die text
          | Except.ok precision =>
            match get_color_from_string L colorStr with
            | Except.error text => ArgStep.die text
            | Except.ok color =>
              -- skip argument and param(s)
              ArgStep.next
                { s with
                  dpimode := s.dpimode.set index.toNat { precision := precision, color := color }
                  i := s.i + 4 }
    | some _, some _, some _ => ArgStep.die ("arg " ++ this ++ " not enough arguments")
    | _, _, _ => ArgStep.undefined
  else if ARGMATCH this "o" "only" then
    match PARAM argv s.i 0 with
    | none => ArgStep.undefined
    | some none => ArgStep.die ("arg " ++ this ++ " not enough arguments")
    | some (some only) => ArgStep.next { s with only := some only }
  else if ARGMATCH this "s" "simple" then
    match PARAM argv s.i 0, PARAM argv s.i 1 with
    | some (some precisionStr), some (some colorStr) =>
      match get_precision_from_string L precisionStr with
      | Except.error text => ArgStep.die text
      | Except.ok precision =>
        match get_color_from_string L colorStr with
        | Except.error text => ArgStep.die text
        | Except.ok color =>
          -- skip argument and param(s)
          ArgStep.next
            { s with
              dpimode := (List.range DPIMODE_COUNT).foldl
                (fun modes k => modes.set k { precision := precision, color := color })
                s.dpimode
              i := s.i + 3 }
    | some _, some _ => ArgStep.die ("arg " ++ this ++ " not enough arguments")
    | _, _ => ArgStep.undefined
  else
    ArgStep.die ("unknown argument '" ++ this ++ "'")

/-- The argument loop `for (i = 1; i < argc; )` of `main`, from the variables `s`, with
fuel: `none` when the loop has not finished after `fuel` rounds. -/
def main.loop (L : Libc) (argv : List String) : Nat → Args → Option ArgStep
  | 0, s => if s.i < argv.length then none else some (ArgStep.next s)
  | fuel + 1, s =>
    if h : s.i < argv.length then
      match main.step L argv s (argv.get ⟨s.i, h⟩) with
      | ArgStep.next s' => main.loop L argv fuel s'
      | ArgStep.die text => some (ArgStep.die text)
      | ArgStep.undefined => some ArgStep.undefined
    else
      some (ArgStep.next s)

/-- The array `enabled` after the loop over the characters of `only` in `main`;
`Except.error` is the message the loop dies with at the first character outside 0 to 5.
`sscanf(s, "%c", &c)` reads the character `*s`, which is not the terminator, and returns 1. -/
def main.enabled (only : String) : Except String (List Bool) :=
  only.data.foldlM
    (fun enabled c =>
      if c.toNat < '0'.toNat ∨ c.toNat ≥ '0'.toNat + DPIMODE_COUNT then
        Except.error ("'" ++ only
          ++ "' invalid mode list, expecting only decimal values 0 - 5")
      else
        Except.ok (enabled.set (c.toNat - '0'.toNat) true))
    (List.replicate DPIMODE_COUNT false)

/-- A call `harpoon_send(hp, sig)` whose result `main` ignores. -/
def main.send (B : Build) (E : Env W) (m : Machine W) (sig : Packet) :
    Except (Proc W) (Machine W) :=
  match harpoon_send B E m sig with
  | Except.ok r => Except.ok r.2
  | Except.error p => Except.error p

/-- The part of `main` after the argument loop, with the variables `s` the loop left:
connect, apply the settings, delete the session, `return 0`.  `Except.error` is the process
ended by `die`. -/
def main.apply (B : Build) (E : Env W) (s : Args) (p : Proc W) :
    Except (Proc W) (Int × Proc W) := do
  let m ← harpoon_new B E p
  let m ←
    match harpoon_connect E m with
    | (some errstr, m) => Except.error (die errstr m.toProc)
    | (none, m) => Except.ok m
  -- change the mouse's polling rate
  let m ←
    if s.polling ≠ 0 then
      let r := harpoonPacket_pollrate (toUnsigned (1000 / s.polling)) m
      main.send B E r.2 r.1
    else
      Except.ok m
  -- apply any DPI settings the user has requested
  let m ← (List.range DPIMODE_COUNT).foldlM
    (fun m i =>
      let mode := s.dpimode.getD i { precision := 0, color := 0 }
      let precision := mode.precision
      let color := mode.color
      let index := i
      if precision = 0 then
        Except.ok m
      else do
        -- tell the mouse all about it
        let m ← main.send B E m
          (harpoonPacket_dpiconfig index (toUnsigned precision) (toUnsigned precision)
            (color >>> 16) (color >>> 8) color)
        main.send B E m (harpoonPacket_dpimode index))
    m
  -- user wishes to disable any modes not listed in 'only'
  let m ←
    match s.only with
    | some only =>
      match main.enabled only with
      | Except.error text => Except.error (die text m.toProc)
      | Except.ok enabled =>
        main.send B E m
          (harpoonPacket_dpisetenabled (enabled.getD 0 false) (enabled.getD 1 false)
            (enabled.getD 2 false) (enabled.getD 3 false) (enabled.getD 4 false)
            (enabled.getD 5 false))
    | none => Except.ok m
  let m := harpoon_delete E m
  Except.ok (0, m.toProc)

/-- Function `showargs()` of `cli.c`: prints the usage and ends the process.  The result is
the state at exit. -/
def showargs (p : Proc W) : Proc W :=
  { p with
    trace := p.trace ++
      [Event.stderr "  -p, --polling   set the mouse's polling rate (in Hertz)",
       Event.stderr "                  e.g. --polling 1000",
       Event.stderr "  -d, --dpi       change color and precision of one DPI setting 0 - 5",
       Event.stderr "                  --dpi index precision 0xHexColor",
       Event.stderr "                  e.g. --dpi 4 1000 0xff0000",
       Event.stderr "  -o, --only      tell mouse's DPI button to allow only the specified modes",
       Event.stderr "                  e.g. --only 012345 (enables all modes)",
       Event.stderr "  -s, --simple    lock mouse into one color and precision setting",
       Event.stderr "                  e.g. --simple precision 0xHexColor"] }

/-- How a run of `main` ends: it returns a status, the process is ended by `die` or
`showargs`, or `argv` is read out of bounds. -/
inductive MainResult (W : Type) where
  | returned (status : Int) (p : Proc W)
  | exited (p : Proc W)
  | undefined

/-- Function `main(argc, argv)` of `cli.c`, the argument loop run with `fuel`: `none` when
the loop has not finished after `fuel` rounds. -/
def main (B : Build) (E : Env W) (L : Libc) (fuel : Nat) (argv : List String) (p : Proc W) :
    Option (MainResult W) :=
  if argv.length < 3 then
    some (MainResult.exited (showargs p))
  else
    -- step through arguments
    match main.loop L argv fuel
        { i := 1, polling := 0
          dpimode := List.replicate DPIMODE_COUNT { precision := 0, color := 0 }
          only := none } with
    | none => none
    | some (ArgStep.next s) =>
      match main.apply B E s p with
      | Except.ok r => some (MainResult.returned r.1 r.2)
      | Except.error p => some (MainResult.exited p)
    | some (ArgStep.die text) => some (MainResult.exited (die text p))
    | some ArgStep.undefined => some MainResult.undefined

/-! ## Observations on the log

The definitions from here to the scripted world are the vocabulary of the statements below;
they are not code of `harpoon.c`. -/

/-- Log entries that are invocations of the on-connect callback. -/
def Event.isOnConnect : Event → Bool
  | Event.onConnect _ _ => true
  | _ => false

/-- Log entries that are invocations of the on-disconnect callback. -/
def Event.isOnDisconnect : Event → Bool
  | Event.onDisconnect _ _ => true
  | _ => false

/-- Log entries that are invocations of the deferred function. -/
def Event.isDefer : Event → Bool
  | Event.defer _ => true
  | _ => false

/-- Log entries that are bulk writes. -/
def Event.isBulkTransfer : Event → Bool
  | Event.libusb_bulk_transfer _ _ _ _ _ => true
  | _ => false

/-- Log entries that close a transport handle. -/
def Event.isClose : Event → Bool
  | Event.libusb_close _ => true
  | _ => false

/-- Log entries that release an interface. -/
def Event.isReleaseInterface : Event → Bool
  | Event.libusb_release_interface _ _ => true
  | _ => false

/-- Log entries that open the device by vendor and product id. -/
def Event.isOpen : Event → Bool
  | Event.libusb_open_device_with_vid_pid _ _ _ => true
  | _ => false

/-- Number of on-connect invocations in a log. -/
def onConnects (t : List Event) : Nat := t.countP Event.isOnConnect

/-- Number of on-disconnect invocations in a log. -/
def onDisconnects (t : List Event) : Nat := t.countP Event.isOnDisconnect

/-- Number of invocations of the deferred function in a log. -/
def deferRuns (t : List Event) : Nat := t.countP Event.isDefer

/-- Whether a call of `harpoon_send` returned a non-zero value. -/
def returnsFailure : Except (Proc W) (Int × Machine W) → Bool
  | Except.ok (rval, _) => rval != 0
  | Except.error _ => false

/-- The process state a call of `harpoon_send` ends in, returned or exited. -/
def finalProc : Except (Proc W) (Int × Machine W) → Proc W
  | Except.ok (_, m) => m.toProc
  | Except.error p => p

/-- Every step of connecting succeeds in the world `w`: the device opens, the kernel-driver
auto-detach is set and interface 1 is claimed. -/
def stepsSucceed (E : Env W) (w : W) (ctx : Context) : Prop :=
  match (E.libusb_open_device_with_vid_pid w ctx idVendor idProduct).1 with
  | none => False
  | some h =>
    (E.libusb_set_auto_detach_kernel_driver
        (E.libusb_open_device_with_vid_pid w ctx idVendor idProduct).2 h true).1 = 0
      ∧ (E.libusb_claim_interface
          (E.libusb_set_auto_detach_kernel_driver
            (E.libusb_open_device_with_vid_pid w ctx idVendor idProduct).2 h true).2
          h out_bInterfaceNumber).1 = 0

/-- The mask byte, byte 4, of the packet `main` builds from the array `enabled`. -/
def enabledMask (enabled : List Bool) : Nat :=
  (harpoonPacket_dpisetenabled (enabled.getD 0 false) (enabled.getD 1 false)
    (enabled.getD 2 false) (enabled.getD 3 false) (enabled.getD 4 false)
    (enabled.getD 5 false)).getD 4 0

/-- The bitwise OR of 2^d over every digit character d of a string. -/
def digitsMask (only : String) : Nat :=
  only.data.foldl (fun acc c => acc ||| 2 ^ (c.toNat - '0'.toNat)) 0

namespace Reentrant

/-- Log entries that are invocations of the on-connect callback. -/
def Obs.isOnConnect : Obs → Bool
  | Obs.event (Event.onConnect _ _) => true
  | _ => false

/-- Log entries that are invocations of the on-disconnect callback. -/
def Obs.isOnDisconnect : Obs → Bool
  | Obs.event (Event.onDisconnect _ _) => true
  | _ => false

/-- The entries before an on-connect invocation, newest first, show a transition from
Disconnected to Connected: the assignment of a newly opened handle `h` to a session that held
none, then the auto-detach and the claim of interface 1 on `h`. -/
def justConnected : List Obs → Bool
  | Obs.event (Event.libusb_claim_interface h1 n)
      :: Obs.event (Event.libusb_set_auto_detach_kernel_driver h2 enable)
      :: Obs.device none (some h) :: _ =>
    decide (h1 = h ∧ h2 = h ∧ n = out_bInterfaceNumber ∧ enable = true)
  | _ => false

/-- The entries before an on-disconnect invocation, newest first, show a transition from
Connected to Disconnected (the stored handle `h` closed, then cleared), or show the start of
a `harpoon_disconnect` called on a session that is already Disconnected. -/
def justDisconnected : List Obs → Bool
  | Obs.device (some h) none :: Obs.event (Event.libusb_close h1) :: _ => decide (h1 = h)
  | Obs.device none none :: Obs.call Fn.disconnect :: _ => true
  | _ => false

/-- Check of a log given newest entry first: every on-connect invocation comes right after a
transition to Connected and every on-disconnect invocation right after a transition to
Disconnected or at the start of a `harpoon_disconnect` of a Disconnected session. -/
def firedOk : List Obs → Bool
  | [] => true
  | o :: past =>
    (match o with
      | Obs.event (Event.onConnect _ _) => justConnected past
      | Obs.event (Event.onDisconnect _ _) => justDisconnected past
      | _ => true) && firedOk past

/-- The check `firedOk` of a log, which is kept oldest entry first. -/
def wellFired (log : List Obs) : Prop := firedOk log.reverse = true

/-- The events of a log, without the records of assignments and calls. -/
def events (log : List Obs) : List Event :=
  log.filterMap (fun o =>
    match o with
    | Obs.event e => some e
    | _ => none)

/-- The state of the session model above that a state stands for. -/
def State.toMachine (s : State W) : Machine W :=
  { hp := s.hp, harpoonPacket__defer := s.harpoonPacket__defer, world := s.world
    trace := events s.log }

/-- Callbacks that make no call on the session: the code of `fn` is its effect on the outside
world, `E.callback`. -/
def worldCode (E : Env W) (fn : Callback) (udata : Udata) : Prog W :=
  Prog.world (fun w => E.callback w fn udata) Prog.ret

/-- Code that only sends packets, probes the connection and acts on the outside world, as
the callbacks of `monitor.c` and `qt-gui/mainwindow.cpp` do. -/
def Prog.sendsOnly : Prog W → Prop
  | Prog.ret => True
  | Prog.world _ k => Prog.sendsOnly k
  | Prog.read k => ∀ w, Prog.sendsOnly (k w)
  | Prog.send _ k => ∀ rval, Prog.sendsOnly (k rval)
  | Prog.isConnected k => ∀ rval, Prog.sendsOnly (k rval)
  | Prog.pollrate _ _ => False
  | Prog.connect _ => False
  | Prog.disconnect _ => False
  | Prog.monitor _ => False
  | Prog.set_onConnect _ _ _ => False
  | Prog.set_onDisconnect _ _ _ => False

end Reentrant

/-! ## A scripted outside world, for the concrete runs -/

/-- A world in which every external call gives a fixed answer. -/
structure Sim where
  opened : Option Handle
  detach : Int
  claim : Int
  transfer : Int × Int
  resolved : Option Device
  maxPacketSize : Int
  deriving DecidableEq, Repr

/-- The outside world that answers from a `Sim`. -/
def simEnv : Env Sim where
  calloc w := (true, w)
  free w := w
  libusb_init w := ((0, 1), w)
  libusb_set_option w _ := w
  libusb_exit w _ := w
  libusb_open_device_with_vid_pid w _ _ _ := (w.opened, w)
  libusb_close w _ := w
  libusb_set_auto_detach_kernel_driver w _ _ := (w.detach, w)
  libusb_claim_interface w _ _ := (w.claim, w)
  libusb_release_interface w _ _ := (0, w)
  libusb_bulk_transfer w _ _ _ _ _ := (w.transfer, w)
  libusb_get_device w _ := (w.resolved, w)
  libusb_get_max_packet_size w _ _ := (w.maxPacketSize, w)
  callback w _ _ := w
  system w _ := w

/-- A world with the mouse plugged in and every call succeeding. -/
def simPlugged : Sim :=
  { opened := some 7, detach := 0, claim := 0, transfer := (0, 64), resolved := some 3
    maxPacketSize := 64 }

/-- The build without `HARPOON_NO_MAIN_LOOP`. -/
def defaultBuild : Build := { HARPOON_NO_MAIN_LOOP := false, NDEBUG := false }

/-- A Disconnected session with both callbacks registered, in the world `w`. -/
def simSession (w : Sim) : Machine Sim :=
  { harpoonPacket__defer := none, world := w, trace := []
    hp := { device := none, context := 1, onConnect := some 10, onDisconnect := some 11
            onConnect_udata := 20, onDisconnect_udata := 21 } }

namespace Reentrant

/-- The session of `simSession` in the world `w`, with an empty log. -/
def simState (w : Sim) : State Sim :=
  { hp := (simSession w).hp, harpoonPacket__defer := none, world := w, log := [] }

/-- The code of the callbacks of `monitor.c`: the on-connect callback (10) sends a DPI
configuration, a DPI mode and a DPI enable packet; the on-disconnect callback (11) makes no
call on the session. -/
def simCode (fn : Callback) (_ : Udata) : Prog Sim :=
  if fn = 10 then
    Prog.send (harpoonPacket_dpiconfig 1 1000 1000 (0xffffffff >>> 16) (0xffffffff >>> 8)
        0xffffffff) (fun _ =>
      Prog.send (harpoonPacket_dpimode 1) (fun _ =>
        Prog.send (harpoonPacket_dpisetenabled false false false false false false) (fun _ =>
          Prog.ret)))
  else
    Prog.ret

end Reentrant

/-! ## Packet encoders: theorems -/

/-- The value stored for the low byte of a coordinate is zero whatever the coordinate. -/
theorem low_byte_shift_zero (x : Nat) : u8 (u32 ((x &&& 0xff) <<< 8)) = 0 := by
  unfold u8 u32
  rw [Nat.shiftLeft_eq, Nat.mod_mod_of_dvd _ (by decide : 256 ∣ 2 ^ 32)]
  exact Nat.mul_mod_left _ _

/-- C1: what the code does where the claim expects 07 13 d4 00 00 e8 03 e8 03 ff 00 00.
`harpoonPacket_dpiconfig(4, 1000, 1000, 0xff, 0, 0)` starts 07 13 d4 00 00 00 03 00 03 ff 00 00:
bytes 5 and 7, the low bytes of x and y, are zero for every input, so byte5 + 256*byte6
differs from x for every supported precision 250, 500, ..., 6000. -/
theorem harpoonPacket_dpiconfig_low_byte_lost :
    harpoonPacket_dpiconfig 4 1000 1000 0xff 0 0
        = [0x07, 0x13, 0xd4, 0x00, 0x00, 0x00, 0x03, 0x00, 0x03, 0xff, 0x00, 0x00]
          ++ List.replicate 52 0
      ∧ (∀ index x y r g b : Nat,
          (harpoonPacket_dpiconfig index x y r g b).get? 5 = some 0
            ∧ (harpoonPacket_dpiconfig index x y r g b).get? 7 = some 0)
      ∧ (∀ k : Fin 24,
          ((harpoonPacket_dpiconfig 0 (250 * (k.val + 1)) (250 * (k.val + 1)) 0 0 0).getD 5 0
            + 256 * (harpoonPacket_dpiconfig 0 (250 * (k.val + 1)) (250 * (k.val + 1)) 0 0 0).getD 6 0
            ≠ 250 * (k.val + 1))) := by
  refine ⟨by decide, ?_, by decide⟩
  intro index x y r g b
  simp [harpoonPacket_dpiconfig, tmp, low_byte_shift_zero]

/-- C9: for every six booleans `harpoonPacket_dpisetenabled` returns the 64 bytes
07 13 05 00 mask followed by 59 zeros, where mask is the sum of 2^i over the i with mi true;
mask is below 64 and bit i of mask is set exactly when mi is true; the arguments
(true, false, false, false, false, true) give mask 0x21. -/
theorem harpoonPacket_dpisetenabled_mask :
    (∀ m0 m1 m2 m3 m4 m5 : Bool,
      harpoonPacket_dpisetenabled m0 m1 m2 m3 m4 m5
          = [0x07, 0x13, 0x05, 0x00,
              (if m0 then 2 ^ 0 else 0) + (if m1 then 2 ^ 1 else 0) + (if m2 then 2 ^ 2 else 0)
                + (if m3 then 2 ^ 3 else 0) + (if m4 then 2 ^ 4 else 0)
                + (if m5 then 2 ^ 5 else 0)]
            ++ List.replicate 59 0
        ∧ (harpoonPacket_dpisetenabled m0 m1 m2 m3 m4 m5).length = 64
        ∧ (harpoonPacket_dpisetenabled m0 m1 m2 m3 m4 m5).getD 4 0 < 64
        ∧ ((harpoonPacket_dpisetenabled m0 m1 m2 m3 m4 m5).getD 4 0).testBit 0 = m0
        ∧ ((harpoonPacket_dpisetenabled m0 m1 m2 m3 m4 m5).getD 4 0).testBit 1 = m1
        ∧ ((harpoonPacket_dpisetenabled m0 m1 m2 m3 m4 m5).getD 4 0).testBit 2 = m2
        ∧ ((harpoonPacket_dpisetenabled m0 m1 m2 m3 m4 m5).getD 4 0).testBit 3 = m3
        ∧ ((harpoonPacket_dpisetenabled m0 m1 m2 m3 m4 m5).getD 4 0).testBit 4 = m4
        ∧ ((harpoonPacket_dpisetenabled m0 m1 m2 m3 m4 m5).getD 4 0).testBit 5 = m5)
      ∧ harpoonPacket_dpisetenabled true false false false false true
          = [0x07, 0x13, 0x05, 0x00, 0x21] ++ List.replicate 59 0 := by
  refine ⟨?_, by decide⟩
  intro m0 m1 m2 m3 m4 m5
  cases m0 <;> cases m1 <;> cases m2 <;> cases m3 <;> cases m4 <;> cases m5 <;> decide

/-- C10: every encoder returns exactly 64 bytes with every byte after its payload zero, and
`harpoonPacket_color(r, g, b)` is 07 22 01 01 03 r g b then 56 zeros,
`harpoonPacket_pollrate(c)` is 07 0a 00 00 c then 59 zeros, `harpoonPacket_dpimode(i)` is
07 13 02 00 i then 59 zeros (r, g, b, c, i as the `uint8_t` the encoder receives). -/
theorem harpoonPacket_layout (index x y r g b c i : Nat) (m0 m1 m2 m3 m4 m5 : Bool)
    (m : Machine W) :
    harpoonPacket_color r g b
        = [0x07, 0x22, 0x01, 0x01, 0x03, r % 256, g % 256, b % 256] ++ List.replicate 56 0
      ∧ (harpoonPacket_pollrate c m).1 = [0x07, 0x0a, 0x00, 0x00, c % 256] ++ List.replicate 59 0
      ∧ harpoonPacket_dpimode i = [0x07, 0x13, 0x02, 0x00, i % 256] ++ List.replicate 59 0
      ∧ (harpoonPacket_color r g b).length = 64
      ∧ (harpoonPacket_pollrate c m).1.length = 64
      ∧ (harpoonPacket_dpimode i).length = 64
      ∧ (harpoonPacket_dpiconfig index x y r g b).length = 64
      ∧ (harpoonPacket_dpisetenabled m0 m1 m2 m3 m4 m5).length = 64
      ∧ (harpoonPacket_dpiconfig index x y r g b).drop 12 = List.replicate 52 0
      ∧ (harpoonPacket_dpisetenabled m0 m1 m2 m3 m4 m5).drop 5 = List.replicate 59 0 := by
  refine ⟨rfl, rfl, rfl, rfl, rfl, rfl, rfl, rfl, rfl, rfl⟩

/-! ## Device session: theorems -/

/-- Without a transport handle `harpoon_send` returns 1 and only clears the deferred slot. -/
theorem harpoon_send_of_none (B : Build) (E : Env W) (m : Machine W) (sig : Packet)
    (hd : m.hp.device = none) :
    harpoon_send B E m sig = Except.ok (1, { m with harpoonPacket__defer := none }) := by
  simp [harpoon_send, hd, harpoon_send.L_return]

/-- A failed or short bulk write: `harpoon_send` returns 1 and clears the deferred slot. -/
theorem harpoon_send_of_write_failed (B : Build) (E : Env W) (m : Machine W) (sig : Packet)
    (h : Handle) (hd : m.hp.device = some h)
    (hw : (E.libusb_bulk_transfer m.world h 0x02 sig 64 0).1.1 ≠ 0
      ∨ (E.libusb_bulk_transfer m.world h 0x02 sig 64 0).1.2 ≠ 64) :
    harpoon_send B E m sig = Except.ok (1,
      { m with
        harpoonPacket__defer := none
        world := (E.libusb_bulk_transfer m.world h 0x02 sig 64 0).2
        trace := m.trace ++ [Event.libusb_bulk_transfer h 0x02 sig 64 0] }) := by
  have hw2 : ¬ ((E.libusb_bulk_transfer m.world h 0x02 sig 64 0).1.1 = 0
      ∧ (E.libusb_bulk_transfer m.world h 0x02 sig 64 0).1.2 = 64) := by
    rintro ⟨h1, h2⟩
    rcases hw with hw | hw
    · exact hw h1
    · exact hw h2
  simp [harpoon_send, hd, harpoon_send.L_return, Machine.call, out_bEndpointAddress,
    LIBUSB_ENDPOINT_OUT, out_wMaxPacketSize]
  intro h1 h2
  exact absurd ⟨h1, h2⟩ hw2

/-- A complete bulk write: `harpoon_send` runs the deferred function, if one is stored, on the
state after the write, then clears the slot and returns 0. -/
theorem harpoon_send_of_write_ok (B : Build) (E : Env W) (m : Machine W) (sig : Packet)
    (h : Handle) (hd : m.hp.device = some h)
    (h1 : (E.libusb_bulk_transfer m.world h 0x02 sig 64 0).1.1 = 0)
    (h2 : (E.libusb_bulk_transfer m.world h 0x02 sig 64 0).1.2 = 64) :
    harpoon_send B E m sig =
      match m.harpoonPacket__defer with
      | some fn =>
        match fn.run B E (m.call (E.libusb_bulk_transfer m.world h 0x02 sig 64 0).2
            (Event.libusb_bulk_transfer h 0x02 sig 64 0)) with
        | Except.ok m' => Except.ok (0, { m' with harpoonPacket__defer := none })
        | Except.error p => Except.error p
      | none =>
        Except.ok (0, { m.call (E.libusb_bulk_transfer m.world h 0x02 sig 64 0).2
            (Event.libusb_bulk_transfer h 0x02 sig 64 0) with harpoonPacket__defer := none }) := by
  simp [harpoon_send, hd, harpoon_send.L_return, Machine.call, out_bEndpointAddress,
    LIBUSB_ENDPOINT_OUT, out_wMaxPacketSize, h1, h2]

/-- In the default build the deferred function is `harpoon_disconnect` and returns. -/
theorem defer_run_default (B : Build) (hB : B.HARPOON_NO_MAIN_LOOP = false) (E : Env W)
    (m : Machine W) (fn : Defer) :
    fn.run B E m
      = Except.ok (harpoon_disconnect E { m with trace := m.trace ++ [Event.defer fn] }) := by
  cases fn
  simp [Defer.run, harpoonPacket__defer_pollrate, hB]

/-- What `harpoon_disconnect` leaves behind: no handle, the deferred slot as it was, no
on-connect or deferred-function entry added to the log, and one on-disconnect entry added
exactly when a callback is registered. -/
theorem harpoon_disconnect_effect (E : Env W) (m : Machine W) :
    (harpoon_disconnect E m).hp.device = none
      ∧ (harpoon_disconnect E m).harpoonPacket__defer = m.harpoonPacket__defer
      ∧ onConnects (harpoon_disconnect E m).trace = onConnects m.trace
      ∧ deferRuns (harpoon_disconnect E m).trace = deferRuns m.trace
      ∧ onDisconnects (harpoon_disconnect E m).trace
        = onDisconnects m.trace + (if m.hp.onDisconnect = none then 0 else 1) := by
  simp only [harpoon_disconnect, Machine.call, Machine.setDevice]
  cases m.hp.device <;> cases m.hp.onDisconnect <;>
    simp [onConnects, onDisconnects, deferRuns, List.countP_append, Event.isOnConnect,
      Event.isOnDisconnect, Event.isDefer]

/-- What `harpoon_connect` leaves behind: the deferred slot as it was, no on-disconnect or
deferred-function entry added to the log; on success a handle is stored and one on-connect
entry is added exactly when a callback is registered; on failure no on-connect entry. -/
theorem harpoon_connect_effect (E : Env W) (m : Machine W) :
    (harpoon_connect E m).2.harpoonPacket__defer = m.harpoonPacket__defer
      ∧ onDisconnects (harpoon_connect E m).2.trace = onDisconnects m.trace
      ∧ deferRuns (harpoon_connect E m).2.trace = deferRuns m.trace
      ∧ ((harpoon_connect E m).1 = none → (harpoon_connect E m).2.hp.device ≠ none)
      ∧ onConnects (harpoon_connect E m).2.trace
        = onConnects m.trace
          + (if (harpoon_connect E m).1 = none ∧ m.hp.onConnect ≠ none then 1 else 0) := by
  simp only [harpoon_connect, Machine.call, Machine.setDevice]
  cases m.hp.device <;> cases m.hp.onConnect <;>
    (simp only []
     split
     · simp [onConnects, onDisconnects, deferRuns, List.countP_append, Event.isOnConnect,
         Event.isOnDisconnect, Event.isDefer]
     · split
       · simp [onConnects, onDisconnects, deferRuns, List.countP_append, Event.isOnConnect,
           Event.isOnDisconnect, Event.isDefer]
       · split
         · simp [onConnects, onDisconnects, deferRuns, List.countP_append, Event.isOnConnect,
             Event.isOnDisconnect, Event.isDefer]
         · simp_all [onConnects, onDisconnects, deferRuns, List.countP_append,
             Event.isOnConnect, Event.isOnDisconnect, Event.isDefer])

/-- In the default build `harpoon_send` always returns. -/
theorem harpoon_send_default_returns (B : Build) (hB : B.HARPOON_NO_MAIN_LOOP = false)
    (E : Env W) (m : Machine W) (sig : Packet) :
    ∃ rval m', harpoon_send B E m sig = Except.ok (rval, m') := by
  cases hd : m.hp.device with
  | none => exact ⟨_, _, harpoon_send_of_none B E m sig hd⟩
  | some h =>
    by_cases hw : (E.libusb_bulk_transfer m.world h 0x02 sig 64 0).1.1 ≠ 0
        ∨ (E.libusb_bulk_transfer m.world h 0x02 sig 64 0).1.2 ≠ 64
    · exact ⟨_, _, harpoon_send_of_write_failed B E m sig h hd hw⟩
    · have hw1 : (E.libusb_bulk_transfer m.world h 0x02 sig 64 0).1.1 = 0 := by
        by_contra hc
        exact hw (Or.inl hc)
      have hw2 : (E.libusb_bulk_transfer m.world h 0x02 sig 64 0).1.2 = 64 := by
        by_contra hc
        exact hw (Or.inr hc)
      rw [harpoon_send_of_write_ok B E m sig h hd hw1 hw2]
      cases hdf : m.harpoonPacket__defer with
      | none => exact ⟨_, _, rfl⟩
      | some fn =>
        simp only [defer_run_default B hB]
        exact ⟨_, _, rfl⟩

/-- C2: `harpoon_send` returns non-zero exactly when the session has no transport handle, or
the bulk write reports an error, or the number of bytes written is not 64.  With no handle
(as in a session fresh from `harpoon_new`) it returns 1 and only clears
`harpoonPacket__defer`: no write is attempted.  In the other failing cases it returns 1 after
the one bulk write.  In every failing case the session fields are unchanged and no callback is
invoked.  In the default build `harpoon_send` always returns. -/
theorem harpoon_send_failure (B : Build) (E : Env W) (m : Machine W) (sig : Packet) :
    (returnsFailure (harpoon_send B E m sig) = true ↔
        (m.hp.device = none ∨ ∃ h, m.hp.device = some h ∧
          ((E.libusb_bulk_transfer m.world h 0x02 sig 64 0).1.1 ≠ 0
            ∨ (E.libusb_bulk_transfer m.world h 0x02 sig 64 0).1.2 ≠ 64)))
      ∧ (m.hp.device = none →
          harpoon_send B E m sig = Except.ok (1, { m with harpoonPacket__defer := none }))
      ∧ (∀ h, m.hp.device = some h →
          ((E.libusb_bulk_transfer m.world h 0x02 sig 64 0).1.1 ≠ 0
            ∨ (E.libusb_bulk_transfer m.world h 0x02 sig 64 0).1.2 ≠ 64) →
          harpoon_send B E m sig = Except.ok (1,
            { m with
              harpoonPacket__defer := none
              world := (E.libusb_bulk_transfer m.world h 0x02 sig 64 0).2
              trace := m.trace ++ [Event.libusb_bulk_transfer h 0x02 sig 64 0] }))
      ∧ (∀ rval m', harpoon_send B E m sig = Except.ok (rval, m') → rval ≠ 0 →
          m'.hp = m.hp ∧ onConnects m'.trace = onConnects m.trace
            ∧ onDisconnects m'.trace = onDisconnects m.trace
            ∧ deferRuns m'.trace = deferRuns m.trace)
      ∧ (B.HARPOON_NO_MAIN_LOOP = false →
          ∃ rval m', harpoon_send B E m sig = Except.ok (rval, m'))
      ∧ (∀ p m0, harpoon_new B E p = Except.ok m0 →
          m0.hp.device = none ∧ m0.hp.onConnect = none ∧ m0.hp.onDisconnect = none) := by
  have hnone := harpoon_send_of_none B E m sig
  have hfail := harpoon_send_of_write_failed B E m sig
  have hok := harpoon_send_of_write_ok B E m sig
  refine ⟨?_, hnone, hfail, ?_, ?_, ?_⟩
  · cases hd : m.hp.device with
    | none => simp [hnone hd, returnsFailure]
    | some h =>
      by_cases hw : (E.libusb_bulk_transfer m.world h 0x02 sig 64 0).1.1 ≠ 0
          ∨ (E.libusb_bulk_transfer m.world h 0x02 sig 64 0).1.2 ≠ 64
      · rw [hfail h hd hw]
        simp only [returnsFailure]
        constructor
        · intro _
          exact Or.inr ⟨h, rfl, hw⟩
        · intro _
          decide
      · have hw1 : (E.libusb_bulk_transfer m.world h 0x02 sig 64 0).1.1 = 0 := by
          by_contra hc
          exact hw (Or.inl hc)
        have hw2 : (E.libusb_bulk_transfer m.world h 0x02 sig 64 0).1.2 = 64 := by
          by_contra hc
          exact hw (Or.inr hc)
        rw [hok h hd hw1 hw2]
        constructor
        · intro hr
          exfalso
          cases hdf : m.harpoonPacket__defer with
          | none => simp [hdf, returnsFailure] at hr
          | some fn =>
            simp only [hdf] at hr
            split at hr <;> simp [returnsFailure] at hr
        · rintro (hc | ⟨h', hh', hc⟩)
          · cases hc
          · cases hh'
            exact absurd hc hw
  · intro rval m' hret hrv
    cases hd : m.hp.device with
    | none =>
      rw [hnone hd] at hret
      cases hret
      simp
    | some h =>
      by_cases hw : (E.libusb_bulk_transfer m.world h 0x02 sig 64 0).1.1 ≠ 0
          ∨ (E.libusb_bulk_transfer m.world h 0x02 sig 64 0).1.2 ≠ 64
      · rw [hfail h hd hw] at hret
        cases hret
        simp [onConnects, onDisconnects, deferRuns, List.countP_append, Event.isOnConnect,
          Event.isOnDisconnect, Event.isDefer]
      · have hw1 : (E.libusb_bulk_transfer m.world h 0x02 sig 64 0).1.1 = 0 := by
          by_contra hc
          exact hw (Or.inl hc)
        have hw2 : (E.libusb_bulk_transfer m.world h 0x02 sig 64 0).1.2 = 64 := by
          by_contra hc
          exact hw (Or.inr hc)
        rw [hok h hd hw1 hw2] at hret
        exfalso
        cases hdf : m.harpoonPacket__defer with
        | none =>
          simp only [hdf] at hret
          cases hret
          exact hrv rfl
        | some fn =>
          simp only [hdf] at hret
          split at hret
          · cases hret
            exact hrv rfl
          · cases hret
  · intro hB
    exact harpoon_send_default_returns B hB E m sig
  · intro p m0 hnew
    unfold harpoon_new at hnew
    simp only at hnew
    split at hnew
    · cases hnew
    · split at hnew
      · cases hnew
      · cases hnew
        split <;> simp [Machine.call]

/-- C2 at a concrete input: a session fresh from `harpoon_new` is Disconnected, and sending a
colour packet on it returns 1 and leaves the state as it was. -/
theorem harpoon_send_failure_witness :
    harpoon_new defaultBuild simEnv (simSession simPlugged).toProc
        = Except.ok
          { simSession simPlugged with
            trace := [Event.calloc, Event.libusb_init, Event.libusb_set_option 1]
            hp := { device := none, context := 1, onConnect := none, onDisconnect := none
                    onConnect_udata := 0, onDisconnect_udata := 0 } }
      ∧ returnsFailure (harpoon_send defaultBuild simEnv (simSession simPlugged)
          (harpoonPacket_color 1 2 3)) = true
      ∧ harpoon_send defaultBuild simEnv (simSession simPlugged) (harpoonPacket_color 1 2 3)
          = Except.ok (1, simSession simPlugged) :=
  ⟨rfl,
    (harpoon_send_failure defaultBuild simEnv (simSession simPlugged)
      (harpoonPacket_color 1 2 3)).1.2 (Or.inl rfl),
    (harpoon_send_failure defaultBuild simEnv (simSession simPlugged)
      (harpoonPacket_color 1 2 3)).2.1 rfl⟩

/-- C3: what the code does where the claim expects the session to remain Disconnected.  When
`libusb_set_auto_detach_kernel_driver` or `libusb_claim_interface` fails, `harpoon_connect`
returns its reason with the opened handle still stored in `hp->device`; shown on a
Disconnected session whose device opens as handle 7, with error -12 at the second step and
with error -6 at the third, and for every world and every Disconnected session. -/
theorem harpoon_connect_failure_keeps_handle :
    (harpoon_connect simEnv (simSession { simPlugged with detach := -12 })).1
        = some "libusb_set_auto_detach_kernel_driver failed"
      ∧ (harpoon_connect simEnv (simSession { simPlugged with detach := -12 })).2.hp.device
        = some 7
      ∧ (harpoon_connect simEnv (simSession { simPlugged with claim := -6 })).1
        = some "libusb_claim_interface failed"
      ∧ (harpoon_connect simEnv (simSession { simPlugged with claim := -6 })).2.hp.device
        = some 7
      ∧ (∀ (V : Type) (E : Env V) (m : Machine V) (h : Handle), m.hp.device = none →
          (E.libusb_open_device_with_vid_pid m.world m.hp.context idVendor idProduct).1 = some h →
          (harpoon_connect E m).1 ≠ none →
          (harpoon_connect E m).2.hp.device = some h
            ∧ onConnects (harpoon_connect E m).2.trace = onConnects m.trace) := by
  refine ⟨by decide, by decide, by decide, by decide, ?_⟩
  intro V E m h hd hopen
  simp only [harpoon_connect, hd, Machine.setDevice, Machine.call, hopen]
  split
  · simp [onConnects, List.countP_append, Event.isOnConnect]
  · split
    · simp [onConnects, List.countP_append, Event.isOnConnect]
    · simp

/-- C4 as stated fails: on a Disconnected session with an on-disconnect callback registered,
`harpoon_disconnect` is not a no-op, it invokes the callback. -/
theorem harpoon_disconnect_disconnected_fires :
    (simSession simPlugged).hp.device = none
      ∧ (simSession simPlugged).hp.onDisconnect = some 11
      ∧ harpoon_disconnect simEnv (simSession simPlugged) ≠ simSession simPlugged
      ∧ (harpoon_disconnect simEnv (simSession simPlugged)).trace = [Event.onDisconnect 11 21]
      ∧ onDisconnects (harpoon_disconnect simEnv (simSession simPlugged)).trace
        = onDisconnects (simSession simPlugged).trace + 1 := by
  decide

/-- C4 amended: on a Disconnected session with an on-disconnect callback `fn` registered,
`harpoon_disconnect` closes no transport handle and leaves the session Disconnected with
every field unchanged; its only effect is one invocation of the on-disconnect callback. -/
theorem harpoon_disconnect_disconnected (E : Env W) (m : Machine W) (fn : Callback)
    (hd : m.hp.device = none) (hcb : m.hp.onDisconnect = some fn) :
    harpoon_disconnect E m
        = { m with
            world := E.callback m.world fn m.hp.onDisconnect_udata
            trace := m.trace ++ [Event.onDisconnect fn m.hp.onDisconnect_udata] }
      ∧ (harpoon_disconnect E m).hp = m.hp
      ∧ (harpoon_disconnect E m).hp.device = none
      ∧ (harpoon_disconnect E m).trace.countP Event.isClose = m.trace.countP Event.isClose
      ∧ onDisconnects (harpoon_disconnect E m).trace = onDisconnects m.trace + 1 := by
  have hm : m.setDevice none = m := by
    cases m with
    | mk p hp =>
      cases hp
      simp_all [Machine.setDevice]
  have heq : harpoon_disconnect E m
      = { m with
          world := E.callback m.world fn m.hp.onDisconnect_udata
          trace := m.trace ++ [Event.onDisconnect fn m.hp.onDisconnect_udata] } := by
    simp only [harpoon_disconnect, hd, hm, hcb, Machine.call]
  rw [heq]
  simp [hd, onDisconnects, List.countP_append, Event.isClose, Event.isOnDisconnect]

/-- C4 amended, at a concrete Disconnected session with the callback 11 registered. -/
theorem harpoon_disconnect_disconnected_witness :
    harpoon_disconnect simEnv (simSession simPlugged)
        = { simSession simPlugged with trace := [Event.onDisconnect 11 21] }
      ∧ (harpoon_disconnect simEnv (simSession simPlugged)).hp = (simSession simPlugged).hp
      ∧ (harpoon_disconnect simEnv (simSession simPlugged)).hp.device = none
      ∧ (harpoon_disconnect simEnv (simSession simPlugged)).trace.countP Event.isClose
        = (simSession simPlugged).trace.countP Event.isClose
      ∧ onDisconnects (harpoon_disconnect simEnv (simSession simPlugged)).trace
        = onDisconnects (simSession simPlugged).trace + 1 :=
  harpoon_disconnect_disconnected simEnv (simSession simPlugged) 11 rfl rfl

/-- C5 as stated fails: with a deferred action pending, a send on a Disconnected session and
a send whose bulk write is short (32 of 64 bytes) both return 1 without executing the action;
they only clear it. -/
theorem harpoon_send_skips_defer_when_failing :
    harpoon_send defaultBuild simEnv
        { simSession simPlugged with harpoonPacket__defer := some Defer.pollrate }
        (harpoonPacket_pollrate_bytes 1)
        = Except.ok (1, simSession simPlugged)
      ∧ deferRuns (finalProc (harpoon_send defaultBuild simEnv
          { simSession simPlugged with harpoonPacket__defer := some Defer.pollrate }
          (harpoonPacket_pollrate_bytes 1))).trace = 0
      ∧ deferRuns (finalProc (harpoon_send defaultBuild simEnv
          (harpoonPacket_pollrate 1
            (harpoon_connect simEnv (simSession { simPlugged with transfer := (0, 32) })).2).2
          (harpoonPacket_pollrate_bytes 1))).trace = 0
      ∧ returnsFailure (harpoon_send defaultBuild simEnv
          (harpoonPacket_pollrate 1
            (harpoon_connect simEnv (simSession { simPlugged with transfer := (0, 32) })).2).2
          (harpoonPacket_pollrate_bytes 1)) = true := by
  refine ⟨rfl, by decide, by decide, by decide⟩

/-- C5 amended: if a deferred action is pending when `harpoon_send` is called, the action is
executed exactly once when the bulk write succeeds (a handle is stored, no transport error,
64 bytes written) and is not executed when the send attempt fails (no handle, transport error
or short write); whenever `harpoon_send` returns, no deferred action is pending, and in the
default build it always returns. -/
theorem harpoon_send_defer (B : Build) (E : Env W) (m : Machine W) (sig : Packet) (fn : Defer)
    (hpend : m.harpoonPacket__defer = some fn) :
    (∀ h, m.hp.device = some h →
        (E.libusb_bulk_transfer m.world h 0x02 sig 64 0).1.1 = 0 →
        (E.libusb_bulk_transfer m.world h 0x02 sig 64 0).1.2 = 64 →
        deferRuns (finalProc (harpoon_send B E m sig)).trace = deferRuns m.trace + 1
          ∧ returnsFailure (harpoon_send B E m sig) = false)
      ∧ ((m.hp.device = none ∨ ∃ h, m.hp.device = some h ∧
            ((E.libusb_bulk_transfer m.world h 0x02 sig 64 0).1.1 ≠ 0
              ∨ (E.libusb_bulk_transfer m.world h 0x02 sig 64 0).1.2 ≠ 64)) →
          deferRuns (finalProc (harpoon_send B E m sig)).trace = deferRuns m.trace
            ∧ returnsFailure (harpoon_send B E m sig) = true)
      ∧ (∀ rval m', harpoon_send B E m sig = Except.ok (rval, m') →
          m'.harpoonPacket__defer = none)
      ∧ (B.HARPOON_NO_MAIN_LOOP = false →
          ∃ rval m', harpoon_send B E m sig = Except.ok (rval, m')) := by
  have hfail : (m.hp.device = none ∨ ∃ h, m.hp.device = some h ∧
        ((E.libusb_bulk_transfer m.world h 0x02 sig 64 0).1.1 ≠ 0
          ∨ (E.libusb_bulk_transfer m.world h 0x02 sig 64 0).1.2 ≠ 64)) →
      ∃ m', harpoon_send B E m sig = Except.ok (1, m') ∧ m'.harpoonPacket__defer = none
        ∧ deferRuns m'.trace = deferRuns m.trace := by
    rintro (hd | ⟨h, hd, hw⟩)
    · exact ⟨_, harpoon_send_of_none B E m sig hd, rfl, rfl⟩
    · refine ⟨_, harpoon_send_of_write_failed B E m sig h hd hw, rfl, ?_⟩
      simp [deferRuns, List.countP_append, Event.isDefer]
  have hrun : ∀ m1 : Machine W,
      (∀ m2, fn.run B E m1 = Except.ok m2 → deferRuns m2.trace = deferRuns m1.trace + 1)
        ∧ (∀ p, fn.run B E m1 = Except.error p → deferRuns p.trace = deferRuns m1.trace + 1) := by
    intro m1
    cases fn
    have hdis := harpoon_disconnect_effect E
      { m1 with trace := m1.trace ++ [Event.defer Defer.pollrate] }
    have hbase : deferRuns (m1.trace ++ [Event.defer Defer.pollrate]) = deferRuns m1.trace + 1 := by
      simp [deferRuns, List.countP_append, Event.isDefer]
    simp only [Defer.run, harpoonPacket__defer_pollrate]
    cases hB : B.HARPOON_NO_MAIN_LOOP
    · simp only [Bool.false_eq_true, if_false]
      refine ⟨?_, ?_⟩
      · intro m2 h2
        cases h2
        rw [hdis.2.2.2.1, hbase]
      · intro p h2
        cases h2
    · simp only [if_true]
      have hcon := harpoon_connect_effect E
        (((harpoon_disconnect E { m1 with trace := m1.trace ++ [Event.defer Defer.pollrate] }).call
          (E.system (harpoon_disconnect E
            { m1 with trace := m1.trace ++ [Event.defer Defer.pollrate] }).world "sleep 2s")
          (Event.system "sleep 2s")).call
          (E.system (harpoon_disconnect E
            { m1 with trace := m1.trace ++ [Event.defer Defer.pollrate] }).world "sleep 2s")
          (Event.stderr "reconnecting..."))
      have hmid : deferRuns ((((harpoon_disconnect E
            { m1 with trace := m1.trace ++ [Event.defer Defer.pollrate] }).call
          (E.system (harpoon_disconnect E
            { m1 with trace := m1.trace ++ [Event.defer Defer.pollrate] }).world "sleep 2s")
          (Event.system "sleep 2s")).call
          (E.system (harpoon_disconnect E
            { m1 with trace := m1.trace ++ [Event.defer Defer.pollrate] }).world "sleep 2s")
          (Event.stderr "reconnecting...")).trace) = deferRuns m1.trace + 1 := by
        simp only [Machine.call, deferRuns, List.countP_append] at hdis ⊢
        simp only [deferRuns, List.countP_append] at hbase
        rw [hdis.2.2.2.1, hbase]
        simp [Event.isDefer]
      refine ⟨?_, ?_⟩
      · intro m2 h2
        split at h2
        · cases h2
        · next heq =>
          cases h2
          have := hcon.2.2.1
          simp only [Machine.call] at this heq hmid
          rw [heq] at this
          rw [this, hmid]
      · intro p h2
        split at h2
        · next heq =>
          cases h2
          have := hcon.2.2.1
          simp only [Machine.call] at this heq hmid
          rw [heq] at this
          simp only [die, deferRuns, List.countP_append] at this hmid ⊢
          rw [this, hmid]
          simp [Event.isDefer]
        · cases h2
  refine ⟨?_, ?_, ?_, ?_⟩
  · intro h hd h1 h2
    rw [harpoon_send_of_write_ok B E m sig h hd h1 h2]
    simp only [hpend]
    have hr := hrun (m.call (E.libusb_bulk_transfer m.world h 0x02 sig 64 0).2
      (Event.libusb_bulk_transfer h 0x02 sig 64 0))
    have hbulk : deferRuns (m.call (E.libusb_bulk_transfer m.world h 0x02 sig 64 0).2
        (Event.libusb_bulk_transfer h 0x02 sig 64 0)).trace = deferRuns m.trace := by
      simp [Machine.call, deferRuns, List.countP_append, Event.isDefer]
    split
    · next m2 heq =>
      simp only [finalProc, returnsFailure]
      rw [hr.1 m2 heq, hbulk]
      simp
    · next p heq =>
      simp only [finalProc, returnsFailure]
      rw [hr.2 p heq, hbulk]
      simp
  · intro hc
    obtain ⟨m', hs, _, hcount⟩ := hfail hc
    rw [hs]
    simp only [finalProc, returnsFailure]
    exact ⟨hcount, by decide⟩
  · intro rval m' hret
    cases hd : m.hp.device with
    | none =>
      rw [harpoon_send_of_none B E m sig hd] at hret
      cases hret
      rfl
    | some h =>
      by_cases hw : (E.libusb_bulk_transfer m.world h 0x02 sig 64 0).1.1 ≠ 0
          ∨ (E.libusb_bulk_transfer m.world h 0x02 sig 64 0).1.2 ≠ 64
      · rw [harpoon_send_of_write_failed B E m sig h hd hw] at hret
        cases hret
        rfl
      · have hw1 : (E.libusb_bulk_transfer m.world h 0x02 sig 64 0).1.1 = 0 := by
          by_contra hc
          exact hw (Or.inl hc)
        have hw2 : (E.libusb_bulk_transfer m.world h 0x02 sig 64 0).1.2 = 64 := by
          by_contra hc
          exact hw (Or.inr hc)
        rw [harpoon_send_of_write_ok B E m sig h hd hw1 hw2] at hret
        simp only [hpend] at hret
        split at hret
        · cases hret
          rfl
        · cases hret
  · intro hB
    exact harpoon_send_default_returns B hB E m sig

/-- C5 amended, at a concrete input: a Connected session with the polling-rate action
pending and a world where the write succeeds; the action runs once and the send returns 0. -/
theorem harpoon_send_defer_witness :
    deferRuns (finalProc (harpoon_send defaultBuild simEnv
        (harpoonPacket_pollrate 1 (harpoon_connect simEnv (simSession simPlugged)).2).2
        (harpoonPacket_pollrate_bytes 1))).trace
        = deferRuns (harpoonPacket_pollrate 1
            (harpoon_connect simEnv (simSession simPlugged)).2).2.trace + 1
      ∧ returnsFailure (harpoon_send defaultBuild simEnv
        (harpoonPacket_pollrate 1 (harpoon_connect simEnv (simSession simPlugged)).2).2
        (harpoonPacket_pollrate_bytes 1)) = false :=
  (harpoon_send_defer defaultBuild simEnv
    (harpoonPacket_pollrate 1 (harpoon_connect simEnv (simSession simPlugged)).2).2
    (harpoonPacket_pollrate_bytes 1) Defer.pollrate rfl).1 7 rfl rfl rfl

/-- C6: in the default build, on a Connected session, building a polling-rate packet with
`harpoonPacket_pollrate` and sending it with a successful bulk write returns 0 and leaves the
session Disconnected with no deferred action pending: the handle is closed and the
on-disconnect callback, when registered, is invoked once.  After a `harpoon_connect` that
succeeds, a successful send of any packet (colour, DPI-mode, DPI-config, DPI-enable: their
encoders store no deferred action) returns 0, adds only the bulk write to the log and leaves
the session Connected on the same handle. -/
theorem harpoon_send_pollrate (B : Build) (hB : B.HARPOON_NO_MAIN_LOOP = false) (E : Env W)
    (m : Machine W) (h : Handle) (msec : Nat) (hd : m.hp.device = some h)
    (h1 : (E.libusb_bulk_transfer m.world h 0x02 (harpoonPacket_pollrate msec m).1 64 0).1.1 = 0)
    (h2 : (E.libusb_bulk_transfer m.world h 0x02 (harpoonPacket_pollrate msec m).1 64 0).1.2
      = 64) :
    ∃ m2, harpoon_send B E (harpoonPacket_pollrate msec m).2 (harpoonPacket_pollrate msec m).1
          = Except.ok (0, m2)
      ∧ m2.hp.device = none
      ∧ m2.harpoonPacket__defer = none
      ∧ m2.trace = m.trace
          ++ [Event.libusb_bulk_transfer h 0x02 (harpoonPacket_pollrate msec m).1 64 0,
              Event.defer Defer.pollrate, Event.libusb_close h]
          ++ (match m.hp.onDisconnect with
              | some fn => [Event.onDisconnect fn m.hp.onDisconnect_udata]
              | none => [])
      ∧ onDisconnects m2.trace
          = onDisconnects m.trace + (if m.hp.onDisconnect = none then 0 else 1)
      ∧ ((harpoon_connect E m2).1 = none →
          ∃ h3, (harpoon_connect E m2).2.hp.device = some h3
            ∧ (harpoon_connect E m2).2.harpoonPacket__defer = none
            ∧ ∀ sig : Packet,
              (E.libusb_bulk_transfer (harpoon_connect E m2).2.world h3 0x02 sig 64 0).1.1 = 0 →
              (E.libusb_bulk_transfer (harpoon_connect E m2).2.world h3 0x02 sig 64 0).1.2 = 64 →
              ∃ m4, harpoon_send B E (harpoon_connect E m2).2 sig = Except.ok (0, m4)
                ∧ m4.hp.device = some h3
                ∧ m4.harpoonPacket__defer = none
                ∧ m4.trace = (harpoon_connect E m2).2.trace
                    ++ [Event.libusb_bulk_transfer h3 0x02 sig 64 0]) := by
  have hd1 : (harpoonPacket_pollrate msec m).2.hp.device = some h := hd
  have hsend := harpoon_send_of_write_ok B E (harpoonPacket_pollrate msec m).2
    (harpoonPacket_pollrate msec m).1 h hd1 h1 h2
  have hdef : (harpoonPacket_pollrate msec m).2.harpoonPacket__defer = some Defer.pollrate := rfl
  simp only [hdef, defer_run_default B hB] at hsend
  refine ⟨_, hsend, ?_, rfl, ?_, ?_, ?_⟩
  · exact (harpoon_disconnect_effect E _).1
  · simp only [harpoon_disconnect, Machine.call, Machine.setDevice, harpoonPacket_pollrate, hd]
    cases m.hp.onDisconnect <;> simp
  · simp only [harpoon_disconnect, Machine.call, Machine.setDevice, harpoonPacket_pollrate, hd]
    cases m.hp.onDisconnect <;>
      simp [onDisconnects, List.countP_append, Event.isOnDisconnect]
  · intro hc
    have heff := harpoon_connect_effect E
      { harpoon_disconnect E
          { (harpoonPacket_pollrate msec m).2.call
              (E.libusb_bulk_transfer m.world h 0x02 (harpoonPacket_pollrate msec m).1 64 0).2
              (Event.libusb_bulk_transfer h 0x02 (harpoonPacket_pollrate msec m).1 64 0) with
            trace := ((harpoonPacket_pollrate msec m).2.call
              (E.libusb_bulk_transfer m.world h 0x02 (harpoonPacket_pollrate msec m).1 64 0).2
              (Event.libusb_bulk_transfer h 0x02 (harpoonPacket_pollrate msec m).1 64 0)).trace
                ++ [Event.defer Defer.pollrate] } with
        harpoonPacket__defer := none }
    have hsome := heff.2.2.2.1 hc
    obtain ⟨h3, hh3⟩ := Option.ne_none_iff_exists'.mp hsome
    refine ⟨h3, hh3, heff.1, ?_⟩
    intro sig g1 g2
    have hs := harpoon_send_of_write_ok B E _ sig h3 hh3 g1 g2
    rw [heff.1] at hs
    exact ⟨_, hs, hh3, rfl, rfl⟩

/-- C6 at a concrete input: a session connected on handle 7 sends a polling-rate packet and
ends Disconnected with the on-disconnect callback invoked once; after `harpoon_connect` a
colour packet is sent and the session stays Connected on handle 7. -/
theorem harpoon_send_pollrate_witness :
    ∃ m2, harpoon_send defaultBuild simEnv
          (harpoonPacket_pollrate 1 (harpoon_connect simEnv (simSession simPlugged)).2).2
          (harpoonPacket_pollrate 1 (harpoon_connect simEnv (simSession simPlugged)).2).1
          = Except.ok (0, m2)
      ∧ m2.hp.device = none
      ∧ m2.harpoonPacket__defer = none
      ∧ onDisconnects m2.trace
          = onDisconnects (harpoon_connect simEnv (simSession simPlugged)).2.trace + 1
      ∧ ∃ m4, harpoon_send defaultBuild simEnv (harpoon_connect simEnv m2).2
            (harpoonPacket_color 1 2 3) = Except.ok (0, m4)
          ∧ m4.hp.device = some 7 := by
  obtain ⟨m2, hs, hdev, hdef, _, hcnt, hnext⟩ :=
    harpoon_send_pollrate defaultBuild rfl simEnv
      (harpoon_connect simEnv (simSession simPlugged)).2 7 1 rfl rfl rfl
  refine ⟨m2, hs, hdev, hdef, hcnt, ?_⟩
  have h0 : harpoon_send defaultBuild simEnv
      (harpoonPacket_pollrate 1 (harpoon_connect simEnv (simSession simPlugged)).2).2
      (harpoonPacket_pollrate 1 (harpoon_connect simEnv (simSession simPlugged)).2).1
      = Except.ok (0,
          { simSession simPlugged with
            trace := [Event.libusb_open_device_with_vid_pid 1 idVendor idProduct,
              Event.libusb_set_auto_detach_kernel_driver 7 true,
              Event.libusb_claim_interface 7 1, Event.onConnect 10 20,
              Event.libusb_bulk_transfer 7 2 (harpoonPacket_pollrate_bytes 1) 64 0,
              Event.defer Defer.pollrate, Event.libusb_close 7, Event.onDisconnect 11 21] }) :=
    rfl
  have hm2 := h0.symm.trans hs
  injection hm2 with hm2
  injection hm2 with _ hm2
  subst hm2
  obtain ⟨h3, hh3, _, hsig⟩ := hnext rfl
  have h37 : h3 = 7 := (Option.some.inj hh3).symm
  subst h37
  obtain ⟨m4, hs4, hd4, _⟩ := hsig (harpoonPacket_color 1 2 3) rfl rfl
  exact ⟨m4, hs4, hd4⟩

/-- What `harpoon_isConnected` leaves behind: the session and the deferred slot as they
were, and no callback or deferred-function entry added to the log. -/
theorem harpoon_isConnected_effect (E : Env W) (m : Machine W) :
    (harpoon_isConnected E m).2.hp = m.hp
      ∧ (harpoon_isConnected E m).2.harpoonPacket__defer = m.harpoonPacket__defer
      ∧ onConnects (harpoon_isConnected E m).2.trace = onConnects m.trace
      ∧ onDisconnects (harpoon_isConnected E m).2.trace = onDisconnects m.trace
      ∧ deferRuns (harpoon_isConnected E m).2.trace = deferRuns m.trace := by
  simp only [harpoon_isConnected, Machine.call]
  split
  · simp
  · split <;>
      simp [onConnects, onDisconnects, deferRuns, List.countP_append, Event.isOnConnect,
        Event.isOnDisconnect, Event.isDefer]

/-- Whether `harpoon_connect` succeeds is decided by the three steps, run in the world left
by closing the handle the session held, if it held one. -/
theorem harpoon_connect_succeeds_iff (E : Env W) (m : Machine W) :
    (harpoon_connect E m).1 = none ↔
      stepsSucceed E
        (match m.hp.device with
          | some h => E.libusb_close m.world h
          | none => m.world)
        m.hp.context := by
  simp only [harpoon_connect, Machine.call, Machine.setDevice, stepsSucceed]
  cases m.hp.device <;>
    (simp only []
     split
     · simp_all
     · split
       · simp_all
       · split <;> simp_all)

/-- C8: `harpoon_monitor` on a session that holds a handle runs the liveness probe
`harpoon_isConnected`, which succeeds exactly when `libusb_get_device` resolves a device and
`libusb_get_max_packet_size` of endpoint 0x02 is positive.  If the probe succeeds the session
is unchanged and no callback is invoked; if it fails the handle is closed, the session becomes
Disconnected and on-disconnect is invoked once (when registered).  On a session without a
handle `harpoon_monitor` is one `harpoon_connect`: the device is opened once. -/
theorem harpoon_monitor_cases (E : Env W) (m : Machine W) :
    (∀ h, m.hp.device = some h →
        ((harpoon_isConnected E m).1 ≠ 0 ↔
          ∃ d, (E.libusb_get_device m.world h).1 = some d
            ∧ (E.libusb_get_max_packet_size (E.libusb_get_device m.world h).2 d 0x02).1 > 0))
      ∧ (∀ h, m.hp.device = some h → (harpoon_isConnected E m).1 ≠ 0 →
          harpoon_monitor E m = (harpoon_isConnected E m).2
            ∧ (harpoon_monitor E m).hp = m.hp
            ∧ (harpoon_monitor E m).harpoonPacket__defer = m.harpoonPacket__defer
            ∧ onConnects (harpoon_monitor E m).trace = onConnects m.trace
            ∧ onDisconnects (harpoon_monitor E m).trace = onDisconnects m.trace
            ∧ (harpoon_monitor E m).trace.countP Event.isClose = m.trace.countP Event.isClose)
      ∧ (∀ h, m.hp.device = some h → (harpoon_isConnected E m).1 = 0 →
          harpoon_monitor E m = harpoon_disconnect E (harpoon_isConnected E m).2
            ∧ (harpoon_monitor E m).hp.device = none
            ∧ onConnects (harpoon_monitor E m).trace = onConnects m.trace
            ∧ onDisconnects (harpoon_monitor E m).trace
              = onDisconnects m.trace + (if m.hp.onDisconnect = none then 0 else 1)
            ∧ (harpoon_monitor E m).trace.countP Event.isClose
              = m.trace.countP Event.isClose + 1)
      ∧ (m.hp.device = none →
          harpoon_monitor E m = (harpoon_connect E m).2
            ∧ (harpoon_monitor E m).trace.countP Event.isOpen
              = m.trace.countP Event.isOpen + 1) := by
  obtain ⟨hhp, hdf, hc, hd, _⟩ := harpoon_isConnected_effect E m
  refine ⟨?_, ?_, ?_, ?_⟩
  · intro h hdev
    simp only [harpoon_isConnected, hdev, Machine.call, out_bEndpointAddress]
    cases hg : (E.libusb_get_device m.world h).1 with
    | none => simp
    | some d =>
      simp only [Option.some.injEq, exists_eq_left']
      split <;> simp_all
  · intro h hdev hprobe
    have hmon : harpoon_monitor E m = (harpoon_isConnected E m).2 := by
      simp only [harpoon_monitor, hdev]
      rw [if_neg hprobe]
    rw [hmon]
    refine ⟨rfl, hhp, hdf, hc, hd, ?_⟩
    simp only [harpoon_isConnected, hdev, Machine.call]
    split <;> simp [List.countP_append, Event.isClose]
  · intro h hdev hprobe
    have hmon : harpoon_monitor E m = harpoon_disconnect E (harpoon_isConnected E m).2 := by
      simp only [harpoon_monitor, hdev]
      rw [if_pos hprobe]
    rw [hmon]
    obtain ⟨e1, _, e3, _, e5⟩ := harpoon_disconnect_effect E (harpoon_isConnected E m).2
    refine ⟨rfl, e1, by rw [e3, hc], by rw [e5, hd, hhp], ?_⟩
    have hdev2 : (harpoon_isConnected E m).2.hp.device = some h := by rw [hhp, hdev]
    have hcl : (harpoon_isConnected E m).2.trace.countP Event.isClose
        = m.trace.countP Event.isClose := by
      simp only [harpoon_isConnected, hdev, Machine.call]
      split <;> simp [List.countP_append, Event.isClose]
    simp only [harpoon_disconnect, Machine.call, Machine.setDevice, hdev2]
    cases (harpoon_isConnected E m).2.hp.onDisconnect <;>
      simp [List.countP_append, Event.isClose, hcl]
  · intro hdev
    refine ⟨by simp only [harpoon_monitor, hdev], ?_⟩
    simp only [harpoon_monitor, hdev, harpoon_connect, Machine.call, Machine.setDevice]
    cases m.hp.onConnect <;>
      (simp only []
       split
       · simp [List.countP_append, Event.isOpen]
       · split
         · simp [List.countP_append, Event.isOpen]
         · split <;> simp [List.countP_append, Event.isOpen])

/-- C8 at concrete inputs: a session connected on handle 7 whose device no longer resolves
is disconnected by `harpoon_monitor` with one on-disconnect invocation; one whose probe
succeeds keeps its fields; a Disconnected session gets one `harpoon_connect`. -/
theorem harpoon_monitor_cases_witness :
    ((harpoon_monitor simEnv
          (harpoon_connect simEnv (simSession { simPlugged with resolved := none })).2).hp.device
        = none
        ∧ onDisconnects (harpoon_monitor simEnv
            (harpoon_connect simEnv (simSession { simPlugged with resolved := none })).2).trace
          = onDisconnects
              (harpoon_connect simEnv (simSession { simPlugged with resolved := none })).2.trace
            + 1)
      ∧ (harpoon_monitor simEnv (harpoon_connect simEnv (simSession simPlugged)).2).hp
        = (harpoon_connect simEnv (simSession simPlugged)).2.hp
      ∧ harpoon_monitor simEnv (simSession simPlugged)
        = (harpoon_connect simEnv (simSession simPlugged)).2 :=
  ⟨⟨((harpoon_monitor_cases simEnv
        (harpoon_connect simEnv (simSession { simPlugged with resolved := none })).2).2.2.1
        7 rfl rfl).2.1,
      ((harpoon_monitor_cases simEnv
        (harpoon_connect simEnv (simSession { simPlugged with resolved := none })).2).2.2.1
        7 rfl rfl).2.2.2.1⟩,
    ((harpoon_monitor_cases simEnv (harpoon_connect simEnv (simSession simPlugged)).2).2.1
      7 rfl (by decide)).2.1,
    ((harpoon_monitor_cases simEnv (simSession simPlugged)).2.2.2 rfl).1⟩

/-! ## Callbacks that call back into the session: theorems -/

namespace Reentrant

/-- The function `harpoon_disconnect` keeps a log well fired, when it is entered with a handle
stored or right after the record of a direct call of it. -/
theorem wellFired_disconnect (cb : Invoke W)
    (hcb : ∀ fn u s, wellFired s.log → wellFired (cb fn u s).state.log)
    (E : Env W) (s : State W) (hs : wellFired s.log)
    (hpre : s.hp.device ≠ none ∨ ∃ l, s.log = l ++ [Obs.call Fn.disconnect]) :
    wellFired (harpoon_disconnect cb E s).state.log := by
  cases hd : s.hp.device with
  | none =>
    rcases hpre with hpre | ⟨l, hl⟩
    · exact absurd hd hpre
    · cases hc : s.hp.onDisconnect with
      | none =>
        simp only [harpoon_disconnect, hd, hc, State.setDevice, Res.state]
        simp only [wellFired] at hs ⊢
        simpa [List.reverse_append, firedOk] using hs
      | some fn =>
        simp only [harpoon_disconnect, hd, hc, State.setDevice, State.ext]
        apply hcb
        simp only [wellFired, hl] at hs ⊢
        simpa [List.reverse_append, firedOk, justDisconnected] using hs
  | some h =>
    cases hc : s.hp.onDisconnect with
    | none =>
      simp only [harpoon_disconnect, hd, hc, State.setDevice, State.ext, Res.state]
      simp only [wellFired] at hs ⊢
      simpa [List.reverse_append, firedOk] using hs
    | some fn =>
      simp only [harpoon_disconnect, hd, hc, State.setDevice, State.ext]
      apply hcb
      simp only [wellFired] at hs ⊢
      simpa [List.reverse_append, firedOk, justDisconnected] using hs

/-- The state a call ends in is not changed by returning another value from it. -/
theorem Res.state_bind_ok {α β : Type} (r : Res W α) (f : α → β) :
    (r.bind (fun a s => Res.ok (f a) s)).state = r.state := by
  cases r <;> rfl

/-- The function `harpoon_connect` keeps a log well fired. -/
theorem wellFired_connect (cb : Invoke W)
    (hcb : ∀ fn u s, wellFired s.log → wellFired (cb fn u s).state.log)
    (E : Env W) (s : State W) (hs : wellFired s.log) :
    wellFired (harpoon_connect cb E s).state.log := by
  simp only [wellFired] at hs
  cases hd : s.hp.device <;> cases hc : s.hp.onConnect <;>
    (simp only [harpoon_connect, hd, hc, State.setDevice, State.ext]
     split
     · simp only [Res.state, wellFired]
       simpa [List.reverse_append, firedOk] using hs
     · split
       · simp only [Res.state, wellFired]
         simpa [List.reverse_append, firedOk] using hs
       · split
         · simp only [Res.state, wellFired]
           simpa [List.reverse_append, firedOk] using hs
         · first
           | (simp only [Res.state, wellFired]
              simpa [List.reverse_append, firedOk] using hs)
           | (rw [Res.state_bind_ok _ (fun _ => (none : Option String))]
              apply hcb
              simp only [wellFired]
              simp_all [List.reverse_append, firedOk, justConnected, out_bInterfaceNumber]))

/-- Code that keeps a log well fired, run after a call that does, keeps it well fired. -/
theorem wellFired_bind {α β : Type} (r : Res W α) (f : α → State W → Res W β)
    (hr : wellFired r.state.log)
    (hf : ∀ a s, wellFired s.log → wellFired (f a s).state.log) :
    wellFired (r.bind f).state.log := by
  cases r with
  | ok a s => exact hf a s hr
  | exited s => exact hr
  | fuel s => exact hr

/-- An entry that is no callback invocation keeps a log well fired. -/
theorem wellFired_append_quiet (l : List Obs) (o : Obs) (hl : wellFired l)
    (h1 : o.isOnConnect = false) (h2 : o.isOnDisconnect = false) :
    wellFired (l ++ [o]) := by
  simp only [wellFired] at hl ⊢
  rw [List.reverse_append]
  cases o with
  | event e => cases e <;> simp_all [firedOk, Obs.isOnConnect, Obs.isOnDisconnect]
  | device old new => simp [firedOk, hl]
  | call f => simp [firedOk, hl]

/-- The deferred function keeps a log well fired, when it is entered with a handle stored. -/
theorem wellFired_defer_pollrate (B : Build) (cb : Invoke W)
    (hcb : ∀ fn u s, wellFired s.log → wellFired (cb fn u s).state.log)
    (E : Env W) (s : State W) (hs : wellFired s.log) (hd : s.hp.device ≠ none) :
    wellFired (harpoonPacket__defer_pollrate B cb E s).state.log := by
  unfold harpoonPacket__defer_pollrate
  apply wellFired_bind _ _ (wellFired_disconnect cb hcb E s hs (Or.inl hd))
  intro _ s1 hs1
  split
  · apply wellFired_bind
    · apply wellFired_connect cb hcb
      simp only [State.ext]
      exact wellFired_append_quiet _ _ (wellFired_append_quiet _ _ hs1 rfl rfl) rfl rfl
    · intro errstr s2 hs2
      cases errstr with
      | none => exact hs2
      | some text =>
        simp only [Res.state, State.ext]
        exact wellFired_append_quiet _ _ hs2 rfl rfl
  · exact hs1

/-- The function `harpoon_send` keeps a log well fired. -/
theorem wellFired_send (B : Build) (cb : Invoke W)
    (hcb : ∀ fn u s, wellFired s.log → wellFired (cb fn u s).state.log)
    (E : Env W) (s : State W) (sig : Packet) (hs : wellFired s.log) :
    wellFired (harpoon_send B cb E s sig).state.log := by
  unfold harpoon_send
  cases hd : s.hp.device with
  | none => exact hs
  | some h =>
    simp only []
    have hbulk : wellFired (s.ext
        (E.libusb_bulk_transfer s.world h (out_bEndpointAddress ||| LIBUSB_ENDPOINT_OUT) sig
          out_wMaxPacketSize 0).2
        (Event.libusb_bulk_transfer h (out_bEndpointAddress ||| LIBUSB_ENDPOINT_OUT) sig
          out_wMaxPacketSize 0)).log := wellFired_append_quiet _ _ hs rfl rfl
    split
    · exact hbulk
    · split
      · apply wellFired_bind
        · apply wellFired_defer_pollrate B cb hcb E
          · exact wellFired_append_quiet _ _ hbulk rfl rfl
          · simp [State.ext, hd]
        · intro _ s1 hs1
          exact hs1
      · exact hbulk

/-- The function `harpoon_isConnected` keeps the session and keeps a log well fired. -/
theorem wellFired_isConnected (E : Env W) (s : State W) (hs : wellFired s.log) :
    (harpoon_isConnected E s).2.hp = s.hp ∧ wellFired (harpoon_isConnected E s).2.log := by
  unfold harpoon_isConnected
  split
  · exact ⟨rfl, hs⟩
  · simp only []
    split
    · exact ⟨rfl, wellFired_append_quiet _ _ hs rfl rfl⟩
    · exact ⟨rfl, wellFired_append_quiet _ _ (wellFired_append_quiet _ _ hs rfl rfl) rfl rfl⟩

/-- The function `harpoon_monitor` keeps a log well fired. -/
theorem wellFired_monitor (cb : Invoke W)
    (hcb : ∀ fn u s, wellFired s.log → wellFired (cb fn u s).state.log)
    (E : Env W) (s : State W) (hs : wellFired s.log) :
    wellFired (harpoon_monitor cb E s).state.log := by
  unfold harpoon_monitor
  cases hd : s.hp.device with
  | none =>
    simp only []
    rw [Res.state_bind_ok _ (fun _ => ())]
    exact wellFired_connect cb hcb E s hs
  | some h =>
    simp only []
    obtain ⟨hhp, hwf⟩ := wellFired_isConnected E s hs
    split
    · apply wellFired_disconnect cb hcb E _ hwf
      left
      rw [hhp, hd]
      simp
    · exact hwf

/-- Any code run on the session keeps a log well fired. -/
theorem wellFired_run (B : Build) (cb : Invoke W)
    (hcb : ∀ fn u s, wellFired s.log → wellFired (cb fn u s).state.log)
    (E : Env W) (p : Prog W) :
    ∀ s : State W, wellFired s.log → wellFired (Prog.run B cb E p s).state.log := by
  induction p with
  | ret =>
    intro s hs
    exact hs
  | world f k ih =>
    intro s hs
    exact ih _ hs
  | read k ih =>
    intro s hs
    exact ih _ _ hs
  | pollrate msec k ih =>
    intro s hs
    exact ih _ (wellFired_append_quiet _ _ hs rfl rfl)
  | send sig k ih =>
    intro s hs
    have h := wellFired_send B cb hcb E (s.enter Fn.send) sig
      (wellFired_append_quiet _ _ hs rfl rfl)
    simp only [Prog.run]
    cases hr : harpoon_send B cb E (s.enter Fn.send) sig with
    | ok rval s1 =>
      rw [hr] at h
      exact ih rval s1 h
    | exited s1 =>
      rw [hr] at h
      exact h
    | fuel s1 =>
      rw [hr] at h
      exact h
  | connect k ih =>
    intro s hs
    have h := wellFired_connect cb hcb E (s.enter Fn.connect)
      (wellFired_append_quiet _ _ hs rfl rfl)
    simp only [Prog.run]
    cases hr : harpoon_connect cb E (s.enter Fn.connect) with
    | ok errstr s1 =>
      rw [hr] at h
      exact ih errstr s1 h
    | exited s1 =>
      rw [hr] at h
      exact h
    | fuel s1 =>
      rw [hr] at h
      exact h
  | disconnect k ih =>
    intro s hs
    have h := wellFired_disconnect cb hcb E (s.enter Fn.disconnect)
      (wellFired_append_quiet _ _ hs rfl rfl) (Or.inr ⟨s.log, rfl⟩)
    simp only [Prog.run]
    cases hr : harpoon_disconnect cb E (s.enter Fn.disconnect) with
    | ok u s1 =>
      rw [hr] at h
      exact ih s1 h
    | exited s1 =>
      rw [hr] at h
      exact h
    | fuel s1 =>
      rw [hr] at h
      exact h
  | monitor k ih =>
    intro s hs
    have h := wellFired_monitor cb hcb E (s.enter Fn.monitor)
      (wellFired_append_quiet _ _ hs rfl rfl)
    simp only [Prog.run]
    cases hr : harpoon_monitor cb E (s.enter Fn.monitor) with
    | ok u s1 =>
      rw [hr] at h
      exact ih s1 h
    | exited s1 =>
      rw [hr] at h
      exact h
    | fuel s1 =>
      rw [hr] at h
      exact h
  | isConnected k ih =>
    intro s hs
    exact ih _ _ (wellFired_isConnected E (s.enter Fn.isConnected)
      (wellFired_append_quiet _ _ hs rfl rfl)).2
  | set_onConnect onConnect udata k ih =>
    intro s hs
    exact ih _ (wellFired_append_quiet _ _ hs rfl rfl)
  | set_onDisconnect onDisconnect udata k ih =>
    intro s hs
    exact ih _ (wellFired_append_quiet _ _ hs rfl rfl)

/-- The invocation of a callback keeps a log well fired, whatever its code and the fuel. -/
theorem wellFired_invoke (B : Build) (E : Env W) (code : Callback → Udata → Prog W)
    (fuel : Nat) :
    ∀ fn u s, wellFired s.log → wellFired (invoke B E code fuel fn u s).state.log := by
  induction fuel with
  | zero =>
    intro fn u s hs
    exact hs
  | succ fuel ih =>
    intro fn u s hs
    exact wellFired_run B (invoke B E code fuel) ih E (code fn u) s hs

/-- With every step succeeding, `harpoon_connect` on a Disconnected session stores the opened
handle, invokes the registered on-connect callback, and what follows is the code of the
callback. -/
theorem harpoon_connect_from_disconnected (cb : Invoke W) (E : Env W) (s : State W)
    (fn : Callback) (hd : s.hp.device = none) (hc : s.hp.onConnect = some fn)
    (hsteps : stepsSucceed E s.world s.hp.context) :
    ∃ h s1, s1.hp = { s.hp with device := some h }
      ∧ s1.harpoonPacket__defer = s.harpoonPacket__defer
      ∧ s1.log = s.log ++
          [Obs.device none none,
           Obs.event (Event.libusb_open_device_with_vid_pid s.hp.context idVendor idProduct),
           Obs.device none (some h),
           Obs.event (Event.libusb_set_auto_detach_kernel_driver h true),
           Obs.event (Event.libusb_claim_interface h out_bInterfaceNumber),
           Obs.event (Event.onConnect fn s.hp.onConnect_udata)]
      ∧ harpoon_connect cb E s
        = (cb fn s.hp.onConnect_udata s1).bind (fun _ s2 => Res.ok none s2) := by
  unfold stepsSucceed at hsteps
  cases hopen : (E.libusb_open_device_with_vid_pid s.world s.hp.context idVendor idProduct).1 with
  | none => simp [hopen] at hsteps
  | some h =>
    simp only [hopen] at hsteps
    refine ⟨h,
      { hp := { s.hp with device := some h }
        harpoonPacket__defer := s.harpoonPacket__defer
        world := (E.libusb_claim_interface
          (E.libusb_set_auto_detach_kernel_driver
            (E.libusb_open_device_with_vid_pid s.world s.hp.context idVendor idProduct).2
            h true).2 h out_bInterfaceNumber).2
        log := s.log ++
          [Obs.device none none,
           Obs.event (Event.libusb_open_device_with_vid_pid s.hp.context idVendor idProduct),
           Obs.device none (some h),
           Obs.event (Event.libusb_set_auto_detach_kernel_driver h true),
           Obs.event (Event.libusb_claim_interface h out_bInterfaceNumber),
           Obs.event (Event.onConnect fn s.hp.onConnect_udata)] },
      rfl, rfl, rfl, ?_⟩
    simp [harpoon_connect, hd, hc, State.setDevice, State.ext, hopen, hsteps.1, hsteps.2]

/-- With every step succeeding after the close, `harpoon_connect` on a session Connected on
`h0` closes `h0`, clears it, stores the newly opened handle, invokes the registered
on-connect callback, and what follows is the code of the callback. -/
theorem harpoon_connect_from_connected (cb : Invoke W) (E : Env W) (s : State W)
    (fn : Callback) (h0 : Handle) (hd : s.hp.device = some h0) (hc : s.hp.onConnect = some fn)
    (hsteps : stepsSucceed E (E.libusb_close s.world h0) s.hp.context) :
    ∃ h s1, s1.hp = { s.hp with device := some h }
      ∧ s1.harpoonPacket__defer = s.harpoonPacket__defer
      ∧ s1.log = s.log ++
          [Obs.event (Event.libusb_close h0),
           Obs.device (some h0) none,
           Obs.event (Event.libusb_open_device_with_vid_pid s.hp.context idVendor idProduct),
           Obs.device none (some h),
           Obs.event (Event.libusb_set_auto_detach_kernel_driver h true),
           Obs.event (Event.libusb_claim_interface h out_bInterfaceNumber),
           Obs.event (Event.onConnect fn s.hp.onConnect_udata)]
      ∧ harpoon_connect cb E s
        = (cb fn s.hp.onConnect_udata s1).bind (fun _ s2 => Res.ok none s2) := by
  unfold stepsSucceed at hsteps
  cases hopen : (E.libusb_open_device_with_vid_pid (E.libusb_close s.world h0) s.hp.context
      idVendor idProduct).1 with
  | none => simp [hopen] at hsteps
  | some h =>
    simp only [hopen] at hsteps
    refine ⟨h,
      { hp := { s.hp with device := some h }
        harpoonPacket__defer := s.harpoonPacket__defer
        world := (E.libusb_claim_interface
          (E.libusb_set_auto_detach_kernel_driver
            (E.libusb_open_device_with_vid_pid (E.libusb_close s.world h0) s.hp.context
              idVendor idProduct).2
            h true).2 h out_bInterfaceNumber).2
        log := s.log ++
          [Obs.event (Event.libusb_close h0),
           Obs.device (some h0) none,
           Obs.event (Event.libusb_open_device_with_vid_pid s.hp.context idVendor idProduct),
           Obs.device none (some h),
           Obs.event (Event.libusb_set_auto_detach_kernel_driver h true),
           Obs.event (Event.libusb_claim_interface h out_bInterfaceNumber),
           Obs.event (Event.onConnect fn s.hp.onConnect_udata)] },
      rfl, rfl, rfl, ?_⟩
    simp [harpoon_connect, hd, hc, State.setDevice, State.ext, hopen, hsteps.1, hsteps.2]

/-- Code that only sends and probes, run on a Connected session with no deferred action
pending, returns and leaves the session as it was, no deferred action pending and no callback
invoked. -/
theorem run_sendsOnly (B : Build) (cb : Invoke W) (E : Env W) (p : Prog W) :
    p.sendsOnly → ∀ (s : State W) (h : Handle), s.hp.device = some h →
      s.harpoonPacket__defer = none →
      ∃ s1, Prog.run B cb E p s = Res.ok () s1 ∧ s1.hp = s.hp
        ∧ s1.harpoonPacket__defer = none
        ∧ s1.log.countP Obs.isOnConnect = s.log.countP Obs.isOnConnect
        ∧ s1.log.countP Obs.isOnDisconnect = s.log.countP Obs.isOnDisconnect := by
  induction p with
  | ret =>
    intro _ s h _ hdf
    exact ⟨s, rfl, rfl, hdf, rfl, rfl⟩
  | world f k ih =>
    intro hp s h hd hdf
    exact ih hp { s with world := f s.world } h hd hdf
  | read k ih =>
    intro hp s h hd hdf
    exact ih s.world (hp s.world) s h hd hdf
  | pollrate msec k _ =>
    intro hp
    exact absurd hp (by simp [Prog.sendsOnly])
  | send sig k ih =>
    intro hp s h hd hdf
    have hsend : ∃ rval s0, harpoon_send B cb E (s.enter Fn.send) sig = Res.ok rval s0
        ∧ s0.hp = s.hp ∧ s0.harpoonPacket__defer = none
        ∧ s0.log.countP Obs.isOnConnect = s.log.countP Obs.isOnConnect
        ∧ s0.log.countP Obs.isOnDisconnect = s.log.countP Obs.isOnDisconnect := by
      simp only [harpoon_send, State.enter, hd, hdf, State.ext, harpoon_send.L_return]
      split
      · exact ⟨_, _, rfl, rfl, rfl,
          by simp [List.countP_append, Obs.isOnConnect],
          by simp [List.countP_append, Obs.isOnDisconnect]⟩
      · exact ⟨_, _, rfl, rfl, rfl,
          by simp [List.countP_append, Obs.isOnConnect],
          by simp [List.countP_append, Obs.isOnDisconnect]⟩
    obtain ⟨rval, s0, hs0, hhp, hdf0, hc1, hc2⟩ := hsend
    obtain ⟨s1, hrun, hhp1, hdf1, hc3, hc4⟩ := ih rval (hp rval) s0 h (by rw [hhp, hd]) hdf0
    refine ⟨s1, ?_, by rw [hhp1, hhp], hdf1, by rw [hc3, hc1], by rw [hc4, hc2]⟩
    simp only [Prog.run, hs0]
    exact hrun
  | connect k _ =>
    intro hp
    exact absurd hp (by simp [Prog.sendsOnly])
  | disconnect k _ =>
    intro hp
    exact absurd hp (by simp [Prog.sendsOnly])
  | monitor k _ =>
    intro hp
    exact absurd hp (by simp [Prog.sendsOnly])
  | isConnected k ih =>
    intro hp s h hd hdf
    have hprobe : (harpoon_isConnected E (s.enter Fn.isConnected)).2.hp = s.hp
        ∧ (harpoon_isConnected E (s.enter Fn.isConnected)).2.harpoonPacket__defer = none
        ∧ (harpoon_isConnected E (s.enter Fn.isConnected)).2.log.countP Obs.isOnConnect
          = s.log.countP Obs.isOnConnect
        ∧ (harpoon_isConnected E (s.enter Fn.isConnected)).2.log.countP Obs.isOnDisconnect
          = s.log.countP Obs.isOnDisconnect := by
      simp only [harpoon_isConnected, State.enter, hd, State.ext]
      split
      · exact ⟨rfl, hdf,
          by simp [List.countP_append, Obs.isOnConnect],
          by simp [List.countP_append, Obs.isOnDisconnect]⟩
      · exact ⟨rfl, hdf,
          by simp [List.countP_append, Obs.isOnConnect],
          by simp [List.countP_append, Obs.isOnDisconnect]⟩
    obtain ⟨hhp, hdf0, hc1, hc2⟩ := hprobe
    obtain ⟨s1, hrun, hhp1, hdf1, hc3, hc4⟩ :=
      ih _ (hp _) (harpoon_isConnected E (s.enter Fn.isConnected)).2 h (by rw [hhp, hd]) hdf0
    refine ⟨s1, ?_, by rw [hhp1, hhp], hdf1, by rw [hc3, hc1], by rw [hc4, hc2]⟩
    simp only [Prog.run]
    exact hrun
  | set_onConnect onConnect udata k _ =>
    intro hp
    exact absurd hp (by simp [Prog.sendsOnly])
  | set_onDisconnect onDisconnect udata k _ =>
    intro hp
    exact absurd hp (by simp [Prog.sendsOnly])

/-- With callbacks that make no call on the session, `harpoon_disconnect` here is
`harpoon_disconnect` of the session model above. -/
theorem harpoon_disconnect_agrees (B : Build) (E : Env W) (fuel : Nat) (s : State W) :
    ∃ s1, harpoon_disconnect (invoke B E (worldCode E) (fuel + 1)) E s = Res.ok () s1
      ∧ s1.toMachine = Harpoon.harpoon_disconnect E s.toMachine := by
  cases hd : s.hp.device <;> cases hc : s.hp.onDisconnect <;>
    simp [harpoon_disconnect, Harpoon.harpoon_disconnect, hd, hc, State.setDevice, State.ext,
      State.toMachine, Machine.call, Machine.setDevice, invoke, worldCode, Prog.run, events,
      List.filterMap_append]

/-- With callbacks that make no call on the session, `harpoon_connect` here is
`harpoon_connect` of the session model above. -/
theorem harpoon_connect_agrees (B : Build) (E : Env W) (fuel : Nat) (s : State W) :
    ∃ s1, harpoon_connect (invoke B E (worldCode E) (fuel + 1)) E s
        = Res.ok (Harpoon.harpoon_connect E s.toMachine).1 s1
      ∧ s1.toMachine = (Harpoon.harpoon_connect E s.toMachine).2 := by
  cases hd : s.hp.device <;> cases hc : s.hp.onConnect <;>
    (simp only [harpoon_connect, Harpoon.harpoon_connect, hd, hc, State.setDevice, State.ext,
       State.toMachine, Machine.call, Machine.setDevice]
     split
     · simp_all [events, List.filterMap_append]
     · split
       · simp_all [events, List.filterMap_append]
       · split
         · simp_all [events, List.filterMap_append]
         · simp_all [events, List.filterMap_append, invoke, worldCode, Prog.run, Res.bind])

/-- The function `harpoon_isConnected` here is `harpoon_isConnected` of the session model
above. -/
theorem harpoon_isConnected_agrees (E : Env W) (s : State W) :
    (harpoon_isConnected E s).1 = (Harpoon.harpoon_isConnected E s.toMachine).1
      ∧ (harpoon_isConnected E s).2.toMachine = (Harpoon.harpoon_isConnected E s.toMachine).2 := by
  cases hd : s.hp.device with
  | none => simp [harpoon_isConnected, Harpoon.harpoon_isConnected, hd, State.toMachine]
  | some h =>
    simp only [harpoon_isConnected, Harpoon.harpoon_isConnected, hd, State.toMachine, State.ext,
      Machine.call]
    split <;> simp_all [events, List.filterMap_append]

/-- With callbacks that make no call on the session, `harpoon_monitor` here is
`harpoon_monitor` of the session model above. -/
theorem harpoon_monitor_agrees (B : Build) (E : Env W) (fuel : Nat) (s : State W) :
    ∃ s1, harpoon_monitor (invoke B E (worldCode E) (fuel + 1)) E s = Res.ok () s1
      ∧ s1.toMachine = Harpoon.harpoon_monitor E s.toMachine := by
  obtain ⟨h1, h2⟩ := harpoon_isConnected_agrees E s
  cases hd : s.hp.device with
  | none =>
    obtain ⟨s1, hs1, hm1⟩ := harpoon_connect_agrees B E fuel s
    refine ⟨s1, ?_, ?_⟩
    · simp only [harpoon_monitor, hd, hs1, Res.bind]
    · simp only [Harpoon.harpoon_monitor, State.toMachine, hd]
      exact hm1
  | some h =>
    have hdm : s.toMachine.hp.device = some h := hd
    simp only [harpoon_monitor, Harpoon.harpoon_monitor, hd, hdm, h1]
    split
    · obtain ⟨s1, hs1, hm1⟩ := harpoon_disconnect_agrees B E fuel (harpoon_isConnected E s).2
      exact ⟨s1, hs1, by rw [hm1, h2]⟩
    · exact ⟨_, rfl, h2⟩

/-- Recording an event here is recording it in the session model above. -/
theorem toMachine_ext (s : State W) (w : W) (e : Event) :
    (s.ext w e).toMachine = s.toMachine.call w e := by
  simp [State.ext, State.toMachine, Machine.call, events, List.filterMap_append]

/-- With callbacks that make no call on the session, the deferred function here is the
deferred function of the session model above: both return in the same state, or both end the
process in the same state. -/
theorem defer_pollrate_agrees (B : Build) (E : Env W) (fuel : Nat) (s : State W) :
    match Harpoon.harpoonPacket__defer_pollrate B E s.toMachine with
    | Except.ok m =>
      ∃ s1, harpoonPacket__defer_pollrate B (invoke B E (worldCode E) (fuel + 1)) E s
          = Res.ok () s1
        ∧ s1.toMachine = m
    | Except.error p =>
      ∃ s1, harpoonPacket__defer_pollrate B (invoke B E (worldCode E) (fuel + 1)) E s
          = Res.exited s1
        ∧ s1.toMachine.toProc = p := by
  obtain ⟨s1, hs1, hm1⟩ := harpoon_disconnect_agrees B E fuel s
  cases hB : B.HARPOON_NO_MAIN_LOOP with
  | false =>
    simp only [Harpoon.harpoonPacket__defer_pollrate, harpoonPacket__defer_pollrate, hB, hs1,
      Res.bind, Bool.false_eq_true, if_false]
    exact ⟨s1, rfl, hm1⟩
  | true =>
    obtain ⟨s2, hs2, hm2⟩ := harpoon_connect_agrees B E fuel
      ((s1.ext (E.system s1.world "sleep 2s") (Event.system "sleep 2s")).ext
        (s1.ext (E.system s1.world "sleep 2s") (Event.system "sleep 2s")).world
        (Event.stderr "reconnecting..."))
    have hbase : Harpoon.harpoonPacket__defer_pollrate B E s.toMachine
        = (match Harpoon.harpoon_connect E
            ((s1.ext (E.system s1.world "sleep 2s") (Event.system "sleep 2s")).ext
              (s1.ext (E.system s1.world "sleep 2s") (Event.system "sleep 2s")).world
              (Event.stderr "reconnecting...")).toMachine with
          | (some errstr, m) => Except.error (die errstr m.toProc)
          | (none, m) => Except.ok m) := by
      simp only [Harpoon.harpoonPacket__defer_pollrate, hB, if_true, ← hm1, toMachine_ext]
      rfl
    have hrefined : harpoonPacket__defer_pollrate B (invoke B E (worldCode E) (fuel + 1)) E s
        = (harpoon_connect (invoke B E (worldCode E) (fuel + 1)) E
            ((s1.ext (E.system s1.world "sleep 2s") (Event.system "sleep 2s")).ext
              (s1.ext (E.system s1.world "sleep 2s") (Event.system "sleep 2s")).world
              (Event.stderr "reconnecting..."))).bind (fun errstr s =>
            match errstr with
            | some text => Res.exited (s.ext s.world (Event.die text))
            | none => Res.ok () s) := by
      simp only [harpoonPacket__defer_pollrate, hB, hs1, Res.bind, if_true]
    rw [hbase, hrefined, hs2]
    generalize Harpoon.harpoon_connect E
      ((s1.ext (E.system s1.world "sleep 2s") (Event.system "sleep 2s")).ext
        (s1.ext (E.system s1.world "sleep 2s") (Event.system "sleep 2s")).world
        (Event.stderr "reconnecting...")).toMachine = res at hm2 ⊢
    obtain ⟨errstr, m2⟩ := res
    cases errstr with
    | none => exact ⟨s2, rfl, hm2⟩
    | some text =>
      refine ⟨_, rfl, ?_⟩
      rw [toMachine_ext]
      simp only [Machine.call, die]
      simp only at hm2
      rw [← hm2]
      rfl

/-- With callbacks that make no call on the session, `harpoon_send` here is `harpoon_send` of
the session model above: both return the same value in the same state, or both end the
process in the same state. -/
theorem harpoon_send_agrees (B : Build) (E : Env W) (fuel : Nat) (s : State W)
    (sig : Packet) :
    match Harpoon.harpoon_send B E s.toMachine sig with
    | Except.ok (rval, m) =>
      ∃ s1, harpoon_send B (invoke B E (worldCode E) (fuel + 1)) E s sig = Res.ok rval s1
        ∧ s1.toMachine = m
    | Except.error p =>
      ∃ s1, harpoon_send B (invoke B E (worldCode E) (fuel + 1)) E s sig = Res.exited s1
        ∧ s1.toMachine.toProc = p := by
  cases hd : s.hp.device with
  | none =>
    simp [harpoon_send, Harpoon.harpoon_send, hd, State.toMachine, harpoon_send.L_return,
      Harpoon.harpoon_send.L_return]
  | some h =>
    have hdm : s.toMachine.hp.device = some h := hd
    have hw : s.toMachine.world = s.world := rfl
    by_cases hc : (E.libusb_bulk_transfer s.world h (out_bEndpointAddress ||| LIBUSB_ENDPOINT_OUT)
          sig out_wMaxPacketSize 0).1.1 ≠ 0
        ∨ (E.libusb_bulk_transfer s.world h (out_bEndpointAddress ||| LIBUSB_ENDPOINT_OUT)
          sig out_wMaxPacketSize 0).1.2 ≠ (out_wMaxPacketSize : Int)
    · simp only [harpoon_send, Harpoon.harpoon_send, hd, hdm, hw, hc, if_true,
        harpoon_send.L_return, Harpoon.harpoon_send.L_return]
      exact ⟨_, rfl,
        by simp [State.toMachine, State.ext, Machine.call, events, List.filterMap_append]⟩
    · cases hdf : s.harpoonPacket__defer with
      | none =>
        have hdfm : s.toMachine.harpoonPacket__defer = none := hdf
        simp only [harpoon_send, Harpoon.harpoon_send, hd, hdm, hw, hc, if_false,
          harpoon_send.L_return, Harpoon.harpoon_send.L_return, State.ext, Machine.call, hdf,
          hdfm]
        exact ⟨_, rfl, by simp [State.toMachine, events, List.filterMap_append]⟩
      | some fn =>
        cases fn
        have hdfm : s.toMachine.harpoonPacket__defer = some Defer.pollrate := hdf
        have hbase : Harpoon.harpoon_send B E s.toMachine sig
            = (match Harpoon.harpoonPacket__defer_pollrate B E
                ((s.ext
                  (E.libusb_bulk_transfer s.world h (out_bEndpointAddress ||| LIBUSB_ENDPOINT_OUT)
                    sig out_wMaxPacketSize 0).2
                  (Event.libusb_bulk_transfer h (out_bEndpointAddress ||| LIBUSB_ENDPOINT_OUT) sig
                    out_wMaxPacketSize 0)).ext
                  (E.libusb_bulk_transfer s.world h (out_bEndpointAddress ||| LIBUSB_ENDPOINT_OUT)
                    sig out_wMaxPacketSize 0).2
                  (Event.defer Defer.pollrate)).toMachine with
              | Except.ok m => Except.ok (0, { m with harpoonPacket__defer := none })
              | Except.error p => Except.error p) := by
          simp only [Harpoon.harpoon_send, hdm, hw, hc, if_false, Machine.call, hdfm, Defer.run,
            Harpoon.harpoon_send.L_return, toMachine_ext]
        have hrefined : harpoon_send B (invoke B E (worldCode E) (fuel + 1)) E s sig
            = (harpoonPacket__defer_pollrate B (invoke B E (worldCode E) (fuel + 1)) E
                ((s.ext
                  (E.libusb_bulk_transfer s.world h (out_bEndpointAddress ||| LIBUSB_ENDPOINT_OUT)
                    sig out_wMaxPacketSize 0).2
                  (Event.libusb_bulk_transfer h (out_bEndpointAddress ||| LIBUSB_ENDPOINT_OUT) sig
                    out_wMaxPacketSize 0)).ext
                  (E.libusb_bulk_transfer s.world h (out_bEndpointAddress ||| LIBUSB_ENDPOINT_OUT)
                    sig out_wMaxPacketSize 0).2
                  (Event.defer Defer.pollrate))).bind
                (fun _ s => Res.ok 0 { s with harpoonPacket__defer := none }) := by
          simp only [harpoon_send, hd, hc, if_false, State.ext, hdf, harpoon_send.L_return]
        have hagree := defer_pollrate_agrees B E fuel
          ((s.ext
            (E.libusb_bulk_transfer s.world h (out_bEndpointAddress ||| LIBUSB_ENDPOINT_OUT) sig
              out_wMaxPacketSize 0).2
            (Event.libusb_bulk_transfer h (out_bEndpointAddress ||| LIBUSB_ENDPOINT_OUT) sig
              out_wMaxPacketSize 0)).ext
            (E.libusb_bulk_transfer s.world h (out_bEndpointAddress ||| LIBUSB_ENDPOINT_OUT) sig
              out_wMaxPacketSize 0).2
            (Event.defer Defer.pollrate))
        rw [hbase, hrefined]
        generalize Harpoon.harpoonPacket__defer_pollrate B E
          ((s.ext
            (E.libusb_bulk_transfer s.world h (out_bEndpointAddress ||| LIBUSB_ENDPOINT_OUT) sig
              out_wMaxPacketSize 0).2
            (Event.libusb_bulk_transfer h (out_bEndpointAddress ||| LIBUSB_ENDPOINT_OUT) sig
              out_wMaxPacketSize 0)).ext
            (E.libusb_bulk_transfer s.world h (out_bEndpointAddress ||| LIBUSB_ENDPOINT_OUT) sig
              out_wMaxPacketSize 0).2
            (Event.defer Defer.pollrate)).toMachine = res at hagree ⊢
        cases res with
        | ok m =>
          obtain ⟨s1, hs1, hm1⟩ := hagree
          refine ⟨{ s1 with harpoonPacket__defer := none }, ?_, ?_⟩
          · rw [hs1]
            rfl
          · rw [← hm1]
            rfl
        | error p =>
          obtain ⟨s1, hs1, hm1⟩ := hagree
          refine ⟨s1, ?_, hm1⟩
          rw [hs1]
          rfl

/-- C7 as stated fails, with the callbacks of `monitor.c` registered and every step
succeeding.  A second `harpoon_connect` on the Connected session invokes on-connect a second
time.  A `harpoon_disconnect` of the Disconnected session invokes on-disconnect with no
transition (the handle field goes from null to null).  A `harpoon_connect` of the Disconnected
session with a deferred action pending returns success and leaves the session Disconnected:
the first send of the on-connect callback runs the deferred disconnect. -/
theorem callbacks_fire_without_transition :
    (Prog.run defaultBuild (invoke defaultBuild simEnv simCode 2) simEnv
        (Prog.connect (fun _ => Prog.connect (fun _ => Prog.ret)))
        (simState simPlugged)).state.log.countP Obs.isOnConnect = 2
      ∧ (harpoon_connect (invoke defaultBuild simEnv simCode 2) simEnv
          (harpoon_connect (invoke defaultBuild simEnv simCode 2) simEnv
            (simState simPlugged)).state).state.log.countP Obs.isOnConnect
        = (harpoon_connect (invoke defaultBuild simEnv simCode 2) simEnv
            (simState simPlugged)).state.log.countP Obs.isOnConnect + 1
      ∧ (harpoon_connect (invoke defaultBuild simEnv simCode 2) simEnv
          (simState simPlugged)).state.hp.device = some 7
      ∧ Prog.run defaultBuild (invoke defaultBuild simEnv simCode 2) simEnv
          (Prog.disconnect Prog.ret) (simState simPlugged)
        = Res.ok ()
            { simState simPlugged with
              log := [Obs.call Fn.disconnect, Obs.device none none,
                Obs.event (Event.onDisconnect 11 21)] }
      ∧ (∃ s2, harpoon_connect (invoke defaultBuild simEnv simCode 2) simEnv
            { simState simPlugged with harpoonPacket__defer := some Defer.pollrate }
          = Res.ok none s2
          ∧ s2.hp.device = none
          ∧ s2.log.countP Obs.isOnConnect = 1
          ∧ s2.log.countP Obs.isOnDisconnect = 1) := by
  refine ⟨by decide!, by decide!, by decide!, by decide!, ?_⟩
  exact ⟨(harpoon_connect (invoke defaultBuild simEnv simCode 2) simEnv
      { simState simPlugged with harpoonPacket__defer := some Defer.pollrate }).state,
    by decide!, by decide!, by decide!, by decide!⟩

/-- C7 amended: with an on-connect callback registered and every step succeeding,
`harpoon_connect` from Disconnected stores the opened handle and then invokes on-connect
exactly once, what follows being the code of the callback; it returns success and leaves the
session Connected when no deferred action is pending and the callback only sends packets,
probes the connection or acts outside the session.  A `harpoon_connect` while the session is
already Connected closes the stored handle, clears it, stores the newly opened handle and
invokes on-connect again.  Over any calls of the session functions by the controller and by
the callbacks themselves, in either build and whatever the fuel, the log stays well fired:
on-connect is invoked only right after a transition from Disconnected to Connected, and
on-disconnect only right after a transition from Connected to Disconnected or at the start of
a `harpoon_disconnect` called on a session that is already Disconnected. -/
theorem callbacks_fire_on_transitions (B : Build) (E : Env W)
    (code : Callback → Udata → Prog W) (fuel : Nat) :
    (∀ (s : State W) (fn : Callback), s.hp.device = none → s.hp.onConnect = some fn →
        stepsSucceed E s.world s.hp.context →
        ∃ h s1, s1.hp = { s.hp with device := some h }
          ∧ s1.harpoonPacket__defer = s.harpoonPacket__defer
          ∧ s1.log = s.log ++
              [Obs.device none none,
               Obs.event (Event.libusb_open_device_with_vid_pid s.hp.context idVendor idProduct),
               Obs.device none (some h),
               Obs.event (Event.libusb_set_auto_detach_kernel_driver h true),
               Obs.event (Event.libusb_claim_interface h out_bInterfaceNumber),
               Obs.event (Event.onConnect fn s.hp.onConnect_udata)]
          ∧ harpoon_connect (invoke B E code fuel) E s
            = (invoke B E code fuel fn s.hp.onConnect_udata s1).bind
                (fun _ s2 => Res.ok none s2))
      ∧ (∀ (s : State W) (fn : Callback), s.hp.device = none → s.hp.onConnect = some fn →
          stepsSucceed E s.world s.hp.context →
          s.harpoonPacket__defer = none → (code fn s.hp.onConnect_udata).sendsOnly →
          ∃ h s2, harpoon_connect (invoke B E code (fuel + 1)) E s = Res.ok none s2
            ∧ s2.hp.device = some h
            ∧ s2.log.countP Obs.isOnConnect = s.log.countP Obs.isOnConnect + 1
            ∧ s2.log.countP Obs.isOnDisconnect = s.log.countP Obs.isOnDisconnect)
      ∧ (∀ (s : State W) (fn : Callback) (h0 : Handle), s.hp.device = some h0 →
          s.hp.onConnect = some fn →
          stepsSucceed E (E.libusb_close s.world h0) s.hp.context →
          ∃ h s1, s1.hp = { s.hp with device := some h }
            ∧ s1.harpoonPacket__defer = s.harpoonPacket__defer
            ∧ s1.log = s.log ++
                [Obs.event (Event.libusb_close h0),
                 Obs.device (some h0) none,
                 Obs.event
                   (Event.libusb_open_device_with_vid_pid s.hp.context idVendor idProduct),
                 Obs.device none (some h),
                 Obs.event (Event.libusb_set_auto_detach_kernel_driver h true),
                 Obs.event (Event.libusb_claim_interface h out_bInterfaceNumber),
                 Obs.event (Event.onConnect fn s.hp.onConnect_udata)]
            ∧ harpoon_connect (invoke B E code fuel) E s
              = (invoke B E code fuel fn s.hp.onConnect_udata s1).bind
                  (fun _ s2 => Res.ok none s2))
      ∧ (∀ (prog : Prog W) (s : State W), wellFired s.log →
          wellFired (Prog.run B (invoke B E code fuel) E prog s).state.log) := by
  refine ⟨?_, ?_, ?_, ?_⟩
  · intro s fn hd hc hsteps
    exact harpoon_connect_from_disconnected (invoke B E code fuel) E s fn hd hc hsteps
  · intro s fn hd hc hsteps hdf hcode
    obtain ⟨h, s1, hhp, hdf1, hlog, hcon⟩ :=
      harpoon_connect_from_disconnected (invoke B E code (fuel + 1)) E s fn hd hc hsteps
    obtain ⟨s2, hrun, hhp2, _, hc1, hc2⟩ :=
      run_sendsOnly B (invoke B E code fuel) E (code fn s.hp.onConnect_udata) hcode s1 h
        (by rw [hhp]) (by rw [hdf1, hdf])
    refine ⟨h, s2, ?_, by rw [hhp2, hhp], ?_, ?_⟩
    · rw [hcon]
      simp only [invoke, hrun, Res.bind]
    · rw [hc1, hlog]
      simp [List.countP_append, List.countP_cons, Obs.isOnConnect]
    · rw [hc2, hlog]
      simp [List.countP_append, List.countP_cons, Obs.isOnDisconnect]
  · intro s fn h0 hd hc hsteps
    exact harpoon_connect_from_connected (invoke B E code fuel) E s fn h0 hd hc hsteps
  · intro prog s hs
    exact wellFired_run B (invoke B E code fuel) (wellFired_invoke B E code fuel) E prog s hs

/-- C7 amended, at a concrete input: with the callbacks of `monitor.c`, no deferred action
pending and every step succeeding, `harpoon_connect` from Disconnected returns success with
the session Connected and on-connect invoked once; and the log of a controller that connects
twice, sends a polling-rate packet, polls and disconnects twice is well fired. -/
theorem callbacks_fire_on_transitions_witness :
    (∃ h s2, harpoon_connect (invoke defaultBuild simEnv simCode 1) simEnv (simState simPlugged)
          = Res.ok none s2
        ∧ s2.hp.device = some h
        ∧ s2.log.countP Obs.isOnConnect = (simState simPlugged).log.countP Obs.isOnConnect + 1
        ∧ s2.log.countP Obs.isOnDisconnect
          = (simState simPlugged).log.countP Obs.isOnDisconnect)
      ∧ wellFired (Prog.run defaultBuild (invoke defaultBuild simEnv simCode 3) simEnv
          (Prog.connect (fun _ => Prog.connect (fun _ => Prog.pollrate 1
            (Prog.send (harpoonPacket_pollrate_bytes 1) (fun _ => Prog.monitor
              (Prog.disconnect (Prog.disconnect Prog.ret)))))))
          (simState simPlugged)).state.log :=
  ⟨(callbacks_fire_on_transitions defaultBuild simEnv simCode 0).2.1 (simState simPlugged) 10
      rfl rfl ⟨rfl, rfl⟩ rfl (by simp [simCode, simState, simSession, Prog.sendsOnly]),
    (callbacks_fire_on_transitions defaultBuild simEnv simCode 3).2.2.2 _ (simState simPlugged)
      rfl⟩

end Reentrant

/-! ## Command-line program: theorems -/

/-- An argument that matches `-o` or `--only` matches neither of the two tests before it. -/
theorem ARGMATCH_only_excludes (this : String) (h : ARGMATCH this "o" "only" = true) :
    ARGMATCH this "p" "polling" = false ∧ ARGMATCH this "d" "dpi" = false := by
  simp only [ARGMATCH, strcasecmp_eq, Bool.or_eq_true, beq_iff_eq] at h
  rcases h with h | h
  · simp only [ARGMATCH, strcasecmp_eq, h]
    decide
  · simp only [ARGMATCH, strcasecmp_eq, h]
    decide

/-- One round of the argument loop at a `-o` or `--only` argument followed by a value stores
the value in `only` and leaves `i` as it was. -/
theorem main_step_only (L : Libc) (argv : List String) (s : Args) (this value : String)
    (hm : ARGMATCH this "o" "only" = true) (hv : argv[s.i + 1]? = some value) :
    main.step L argv s this = ArgStep.next { s with only := some value } := by
  obtain ⟨hp, hd⟩ := ARGMATCH_only_excludes this hm
  have hlt : s.i + 1 < argv.length := by
    by_contra hc
    rw [List.getElem?_eq_none (Nat.le_of_not_lt hc)] at hv
    cases hv
  simp [main.step, hp, hd, hm, PARAM, hlt, hv]

/-- From a `-o` or `--only` argument followed by a value the argument loop does not finish,
whatever the fuel. -/
theorem main_loop_only_stuck (L : Libc) (argv : List String) (this value : String)
    (hm : ARGMATCH this "o" "only" = true) :
    ∀ (fuel : Nat) (s : Args), argv[s.i]? = some this → argv[s.i + 1]? = some value →
      main.loop L argv fuel s = none := by
  intro fuel
  induction fuel with
  | zero =>
    intro s ht _
    have hlt : s.i < argv.length := by
      by_contra hc
      rw [List.getElem?_eq_none (Nat.le_of_not_lt hc)] at ht
      cases ht
    simp [main.loop, hlt]
  | succ fuel ih =>
    intro s ht hv
    have hlt : s.i < argv.length := by
      by_contra hc
      rw [List.getElem?_eq_none (Nat.le_of_not_lt hc)] at ht
      cases ht
    have hget : argv.get ⟨s.i, hlt⟩ = this := by
      rw [List.getElem?_eq_getElem hlt] at ht
      exact Option.some.inj ht
    simp only [main.loop, hlt, dite_true, hget, main_step_only L argv s this value hm hv]
    exact ih { s with only := some value } ht hv

/-- Setting element `d` of the array `enabled` sets bit `d` of the mask byte. -/
theorem enabledMask_set (enabled : List Bool) (hlen : enabled.length = 6) (d : Nat)
    (hd : d < 6) : enabledMask (enabled.set d true) = enabledMask enabled ||| 2 ^ d := by
  match enabled, hlen with
  | [a, b, c, e, f, g], _ =>
    interval_cases d <;> cases a <;> cases b <;> cases c <;> cases e <;> cases f <;> cases g <;>
      decide

/-- On a string of digits 0 to 5 the loop over the characters of `only` does not die, and
the mask byte built from the array it leaves is the OR of 2^d over the digits. -/
theorem main_enabled_digits (only : String)
    (hdig : ∀ c ∈ only.data, '0'.toNat ≤ c.toNat ∧ c.toNat < '0'.toNat + 6) :
    ∃ enabled, main.enabled only = Except.ok enabled ∧ enabled.length = 6
      ∧ enabledMask enabled = digitsMask only := by
  have key : ∀ (text : String) (cs : List Char) (enabled : List Bool), enabled.length = 6 →
      (∀ c ∈ cs, '0'.toNat ≤ c.toNat ∧ c.toNat < '0'.toNat + 6) →
      ∃ enabled', cs.foldlM
          (fun enabled c =>
            if c.toNat < '0'.toNat ∨ c.toNat ≥ '0'.toNat + DPIMODE_COUNT then
              (Except.error text : Except String (List Bool))
            else
              Except.ok (enabled.set (c.toNat - '0'.toNat) true))
          enabled = Except.ok enabled'
        ∧ enabled'.length = 6
        ∧ enabledMask enabled'
          = cs.foldl (fun acc c => acc ||| 2 ^ (c.toNat - '0'.toNat)) (enabledMask enabled) := by
    intro text cs
    induction cs with
    | nil =>
      intro enabled hlen _
      exact ⟨enabled, rfl, hlen, rfl⟩
    | cons c cs ih =>
      intro enabled hlen hcs
      have hc := hcs c (List.mem_cons_self c cs)
      have hnot : ¬ (c.toNat < '0'.toNat ∨ c.toNat ≥ '0'.toNat + DPIMODE_COUNT) := by
        simp only [DPIMODE_COUNT]
        omega
      obtain ⟨enabled', h1, h2, h3⟩ := ih (enabled.set (c.toNat - '0'.toNat) true)
        (by simp [hlen]) (fun c' hc' => hcs c' (List.mem_cons_of_mem c hc'))
      refine ⟨enabled', ?_, h2, ?_⟩
      · rw [List.foldlM_cons, if_neg hnot]
        exact h1
      · rw [h3, List.foldl_cons, enabledMask_set enabled hlen _ (by omega)]
  obtain ⟨enabled, h1, h2, h3⟩ := key
    ("'" ++ only ++ "' invalid mode list, expecting only decimal values 0 - 5") only.data
    (List.replicate DPIMODE_COUNT false) (by simp [DPIMODE_COUNT]) hdig
  refine ⟨enabled, h1, h2, ?_⟩
  rw [h3]
  rfl

/-- C11: what the code does where the claim expects the argument loop to finish and one
DPI-enable packet to be sent.  For the arguments `--only 13`, `--only 012345` and `-o 13` the
argument loop of `main` never finishes, whatever the fuel, world and build: the `--only`
branch stores the value and does not advance `i`, so `main` never connects and sends nothing;
the same holds from any `-o` or `--only` argument followed by a value.  The code after the
loop is as the claim says: for a string of digits 0 to 5 the mask byte is the OR of 2^d over
its digits (0x3f for 012345, 0x0a for 13), and run with the variables the loop would have
left for `--only 13` it sends that one packet. -/
theorem main_only_loop_never_finishes :
    (∀ (V : Type) (B : Build) (E : Env V) (L : Libc) (p : Proc V) (fuel : Nat),
        main B E L fuel ["harpoon", "--only", "13"] p = none
          ∧ main B E L fuel ["harpoon", "--only", "012345"] p = none
          ∧ main B E L fuel ["harpoon", "-o", "13"] p = none)
      ∧ (∀ (L : Libc) (argv : List String) (this value : String) (s : Args) (fuel : Nat),
          argv[s.i]? = some this → argv[s.i + 1]? = some value →
          ARGMATCH this "o" "only" = true →
          main.step L argv s this = ArgStep.next { s with only := some value }
            ∧ main.loop L argv fuel s = none)
      ∧ (∀ only : String,
          (∀ c ∈ only.data, '0'.toNat ≤ c.toNat ∧ c.toNat < '0'.toNat + 6) →
          ∃ enabled, main.enabled only = Except.ok enabled
            ∧ enabledMask enabled = digitsMask only)
      ∧ digitsMask "012345" = 0x3f
      ∧ digitsMask "13" = 0x0a
      ∧ main.apply defaultBuild simEnv
          { i := 3, polling := 0
            dpimode := List.replicate DPIMODE_COUNT { precision := 0, color := 0 }
            only := some "13" }
          (simSession simPlugged).toProc
        = Except.ok (0,
            { (simSession simPlugged).toProc with
              trace := [Event.calloc, Event.libusb_init, Event.libusb_set_option 1,
                Event.libusb_open_device_with_vid_pid 1 idVendor idProduct,
                Event.libusb_set_auto_detach_kernel_driver 7 true,
                Event.libusb_claim_interface 7 1,
                Event.libusb_bulk_transfer 7 2
                  ([0x07, 0x13, 0x05, 0x00, 0x0a] ++ List.replicate 59 0) 64 0,
                Event.libusb_release_interface (some 7) 1, Event.libusb_close 7,
                Event.libusb_exit 1, Event.free] }) := by
  refine ⟨?_, ?_, ?_, by decide, by decide, rfl⟩
  · intro V B E L p fuel
    refine ⟨?_, ?_, ?_⟩
    · have h := main_loop_only_stuck L ["harpoon", "--only", "13"] "--only" "13"
        (by decide) fuel
        { i := 1, polling := 0
          dpimode := List.replicate DPIMODE_COUNT { precision := 0, color := 0 }
          only := none } rfl rfl
      simp [main, h]
    · have h := main_loop_only_stuck L ["harpoon", "--only", "012345"] "--only" "012345"
        (by decide) fuel
        { i := 1, polling := 0
          dpimode := List.replicate DPIMODE_COUNT { precision := 0, color := 0 }
          only := none } rfl rfl
      simp [main, h]
    · have h := main_loop_only_stuck L ["harpoon", "-o", "13"] "-o" "13"
        (by decide) fuel
        { i := 1, polling := 0
          dpimode := List.replicate DPIMODE_COUNT { precision := 0, color := 0 }
          only := none } rfl rfl
      simp [main, h]
  · intro L argv this value s fuel ht hv hm
    exact ⟨main_step_only L argv s this value hm hv,
      main_loop_only_stuck L argv this value hm fuel s ht hv⟩
  · intro only hdig
    obtain ⟨enabled, h1, _, h3⟩ := main_enabled_digits only hdig
    exact ⟨enabled, h1, h3⟩

/-! ## Session teardown: theorems -/

/-- C12 as stated fails: on a Disconnected session with an on-disconnect callback registered,
`harpoon_delete` calls `libusb_release_interface` (with the null handle) and invokes the
callback before it releases the context and the memory. -/
theorem harpoon_delete_disconnected_releases_and_fires :
    (simSession simPlugged).hp.device = none
      ∧ (harpoon_delete simEnv (simSession simPlugged)).trace
        = [Event.libusb_release_interface none 1, Event.onDisconnect 11 21,
            Event.libusb_exit 1, Event.free]
      ∧ (harpoon_delete simEnv (simSession simPlugged)).trace.countP Event.isReleaseInterface = 1
      ∧ onDisconnects (harpoon_delete simEnv (simSession simPlugged)).trace = 1 := by
  decide

/-- C12 amended: on a Connected session `harpoon_delete` releases interface 1 of the handle,
then closes the handle, then invokes the on-disconnect callback when one is registered, then
releases the context and last the memory of the session.  On a Disconnected session it closes
no handle; apart from calls of `libusb_release_interface`, about which nothing is said, it
invokes the on-disconnect callback once when one is registered and then releases the context
and the memory. -/
theorem harpoon_delete_order (E : Env W) (m : Machine W) :
    (∀ h, m.hp.device = some h →
        (harpoon_delete E m).trace
          = m.trace ++ [Event.libusb_release_interface (some h) 1, Event.libusb_close h]
            ++ (match m.hp.onDisconnect with
                | some fn => [Event.onDisconnect fn m.hp.onDisconnect_udata]
                | none => [])
            ++ [Event.libusb_exit m.hp.context, Event.free])
      ∧ (m.hp.device = none →
          (harpoon_delete E m).trace.filter (fun e => !e.isReleaseInterface)
              = m.trace.filter (fun e => !e.isReleaseInterface)
                ++ (match m.hp.onDisconnect with
                    | some fn => [Event.onDisconnect fn m.hp.onDisconnect_udata]
                    | none => [])
                ++ [Event.libusb_exit m.hp.context, Event.free]
            ∧ (harpoon_delete E m).trace.countP Event.isClose = m.trace.countP Event.isClose
            ∧ onConnects (harpoon_delete E m).trace = onConnects m.trace
            ∧ onDisconnects (harpoon_delete E m).trace
              = onDisconnects m.trace + (if m.hp.onDisconnect = none then 0 else 1)) := by
  refine ⟨?_, ?_⟩
  · intro h hd
    simp only [harpoon_delete, harpoon_disconnect, Machine.call, Machine.setDevice, hd,
      out_bInterfaceNumber]
    cases m.hp.onDisconnect <;> simp
  · intro hd
    simp only [harpoon_delete, harpoon_disconnect, Machine.call, Machine.setDevice, hd,
      out_bInterfaceNumber]
    cases m.hp.onDisconnect <;>
      simp [List.filter_append, List.countP_append, onConnects, onDisconnects,
        Event.isReleaseInterface, Event.isClose, Event.isOnConnect, Event.isOnDisconnect]

/-- C12 amended, at concrete inputs: a session connected on handle 7 with the on-disconnect
callback 11 is torn down in the order release, close, callback, context, memory; a
Disconnected one closes nothing and invokes the callback once. -/
theorem harpoon_delete_order_witness :
    (harpoon_delete simEnv (harpoon_connect simEnv (simSession simPlugged)).2).trace
        = (harpoon_connect simEnv (simSession simPlugged)).2.trace
          ++ [Event.libusb_release_interface (some 7) 1, Event.libusb_close 7]
          ++ [Event.onDisconnect 11 21]
          ++ [Event.libusb_exit 1, Event.free]
      ∧ (harpoon_delete simEnv (simSession simPlugged)).trace.countP Event.isClose
        = (simSession simPlugged).trace.countP Event.isClose
      ∧ onDisconnects (harpoon_delete simEnv (simSession simPlugged)).trace
        = onDisconnects (simSession simPlugged).trace + 1 :=
  ⟨(harpoon_delete_order simEnv (harpoon_connect simEnv (simSession simPlugged)).2).1 7 rfl,
    ((harpoon_delete_order simEnv (simSession simPlugged)).2 rfl).2.1,
    ((harpoon_delete_order simEnv (simSession simPlugged)).2 rfl).2.2.2⟩

end Harpoon
